import Mathlib

/-!
Verification of the competition synchronization engine of the vbet repository
(src/vbet/game/competition.py, class LeagueCompetition).

The Python class is shallowly embedded as pure Lean functions over an explicit
engine state.  Python dictionaries become insertion-ordered association lists,
`None`-able fields become `Option`, coroutine side effects (outbound requests,
sleeps, collaborator calls) become an explicit list of `Action` values returned
next to the successor state, and exceptions that escape a handler become error
constructors of the result type.  Field and function names follow the source.

The `LeagueTable` class (vbet/game/table.py) and the resource-name mapping
(vbet/utils/parser.py) are not part of the provided sources; they are modelled
from the specification where noted.
-/

set_option autoImplicit false

namespace Vbet

/-- Insertion-ordered association-list lookup, mirroring Python `dict.get`:
the value of the unique entry whose key matches, if any. -/
def alookup {α β : Type} [DecidableEq α] : List (α × β) → α → Option β
  | [], _ => none
  | p :: tl, k => if p.1 = k then some p.2 else alookup tl k

/-- Insertion-ordered association-list insertion, mirroring Python
`d[k] = v`: update in place when the key is present, append otherwise. -/
def ainsert {α β : Type} [DecidableEq α] : List (α × β) → α → β → List (α × β)
  | [], k, v => [(k, v)]
  | p :: tl, k, v => if p.1 = k then (k, v) :: tl else p :: ainsert tl k v

/-- Association-list removal, mirroring the removal half of Python
`dict.pop(k)`. -/
def aerase {α β : Type} [DecidableEq α] : List (α × β) → α → List (α × β)
  | [], _ => []
  | p :: tl, k => if p.1 = k then aerase tl k else p :: aerase tl k

/-- Python truthiness of an int-or-None value: `None` and `0` are falsy. -/
def truthy : Option Nat → Bool
  | none => false
  | some v => decide (v ≠ 0)

/-- Phase constants, mirroring the class constants on LeagueCompetition. -/
def SLEEPING : Nat := 0

/-- Phase constant `EVENTS` (the spec's `AwaitingEvents`). -/
def EVENTS : Nat := 1

/-- Phase constant `TICKETS` (the spec's `AwaitingTickets`). -/
def TICKETS : Nat := 2

/-- Phase constant `RESULTS` (the spec's `AwaitingResults`). -/
def RESULTS : Nat := 3

/-- The `data` sub-dictionary carried by fixtures and history entries:
`leagueId` and `matchDay`, both possibly absent. -/
structure LeagueData where
  leagueId : Option Nat
  matchDay : Option Nat
  deriving DecidableEq, Repr

/-- One event of a fixtures response: id, the two participants (platform id
and fifa code) and the opaque stats payload read by `feed_stats`. -/
structure EventItem where
  eventId : Nat
  p1 : Nat
  f1 : String
  p2 : Nat
  f2 : String
  stats : Nat
  deriving DecidableEq, Repr

/-- The first element of a well-formed fixtures response body. -/
structure EventsData where
  eBlockId : Option Nat
  data : Option LeagueData
  eventTime : Option Nat
  events : List EventItem
  deriving DecidableEq, Repr

/-- One event of a results response.  `won` is the `wonMarkets` list (decimal
strings on the wire, kept as numbers), `videoA`/`videoB` are the two team ids
embedded at positions 4 and 5 of the settlement `videoURL`. -/
structure ResultEvent where
  eventId : Nat
  won : List Nat
  half_lost : List Nat
  half_won : List Nat
  refund : List Nat
  videoA : Nat
  videoB : Nat
  deriving DecidableEq, Repr

/-- The first element of a well-formed results response body. -/
structure ResultsData where
  eBlockId : Option Nat
  events : List ResultEvent
  deriving DecidableEq, Repr

/-- The result sub-payload of a history event, when present. -/
structure HistResult where
  won : List Nat
  half_lost : List Nat
  half_won : List Nat
  refund : List Nat
  deriving DecidableEq, Repr

/-- One event of a history entry. -/
structure HistoryEvent where
  eventId : Nat
  f1 : String
  f2 : String
  oddValues : List String
  result : Option HistResult
  deriving DecidableEq, Repr

/-- One per-week entry of a history response body. -/
structure WeekResult where
  eBlockId : Option Nat
  data : LeagueData
  events : List HistoryEvent
  deriving DecidableEq, Repr

/-- A recorded result for one event, as built by the parsing loops.  The
correct-score market table (vbet/game/markets.py, not under src/) decodes the
selected market id into a score pair; no claim observes the decoded score, so
the record keeps the selected market id itself. -/
structure ResultRec where
  id : Nat
  A : Option String
  B : Option String
  score : Nat
  deriving DecidableEq, Repr

/-- The handicap data stored per event into `winning_ids`. -/
structure HandicapData where
  half_lost : List Nat
  half_won : List Nat
  refund_stake : List Nat
  deriving DecidableEq, Repr

/-- A fixture record kept in `league_games`: two team labels, the raw odds
vector (numeric conversion irrelevant to every claim) and the event index. -/
structure MatchRec where
  A : String
  B : String
  odds : List String
  index : Nat
  deriving DecidableEq, Repr

/-- Modelled from the spec: the `LeagueTable` class (vbet/game/table.py) is
not under src/.  Per section 4.1 of the spec it tracks, for the currently
tracked league, which rounds have fixture records and satisfied result
records, a round-to-block mapping, and per-round stats; `recordResults` is
ignored when the league does not match the tracked league. -/
structure LeagueTable where
  max_week : Nat
  league : Option Nat
  event_weeks : List (Option Nat)
  result_weeks : List (Option Nat)
  stats_store : List (Option Nat × List (Nat × Nat))
  blocks : List (Option Nat × Option Nat)
  deriving DecidableEq, Repr

namespace LeagueTable

/-- Modelled from the spec: notify the table of a fixtures event for a round;
a league change resets the table state to the new league (the table defends
against stale leagues), then the round's fixture record is marked present. -/
def on_event (t : LeagueTable) (league week : Option Nat) : LeagueTable :=
  if league = t.league then
    if t.event_weeks.contains week then t
    else { t with event_weeks := t.event_weeks ++ [week] }
  else
    { t with league := league, event_weeks := [week], result_weeks := [],
             stats_store := [], blocks := [] }

/-- Modelled from the spec: record per-round stats for the tracked league. -/
def feed_stats (t : LeagueTable) (league week : Option Nat)
    (stats : List (Nat × Nat)) : LeagueTable :=
  if league = t.league then { t with stats_store := ainsert t.stats_store week stats }
  else t

/-- Modelled from the spec: `recordResults` — insert the result record and the
block-to-round association; ignored if `league` does not match the table's
currently tracked league. -/
def feed_result (t : LeagueTable) (block : Option Nat) (league week : Option Nat)
    (_results : List (Nat × ResultRec)) (_result_ids : List (Nat × List Nat))
    (_winning_ids : List (Nat × HandicapData)) : LeagueTable :=
  if league = t.league then
    { t with
      result_weeks := if t.result_weeks.contains week then t.result_weeks
                      else t.result_weeks ++ [week],
      blocks := ainsert t.blocks block week }
  else t

/-- Modelled from the spec: `missingRounds` — all rounds in `[1, maxRounds]`
without a satisfied result record, ascending. -/
def get_missing_weeks (t : LeagueTable) : List Nat :=
  (List.range' 1 t.max_week).filter (fun w => decide (¬ t.result_weeks.contains (some w)))

/-- Modelled from the spec: `weeksReady` — the subset of the required rounds
not yet satisfied. -/
def check_weeks (t : LeagueTable) (ws : List Nat) : List Nat :=
  ws.filter (fun w => decide (¬ t.result_weeks.contains (some w)))

/-- Modelled from the spec: `minKnownBlock` — the smallest block id currently
mapped, absent when the table knows no block. -/
def get_min_block (t : LeagueTable) : Option Nat :=
  match t.blocks.filterMap (fun p => p.1) with
  | [] => none
  | x :: xs => some (xs.foldl Nat.min x)

/-- Modelled from the spec: `isComplete` — true iff every round in
`[1, maxRounds]` has both fixture and result records. -/
def is_complete (t : LeagueTable) : Bool :=
  (List.range' 1 t.max_week).all
    (fun w => t.event_weeks.contains (some w) && t.result_weeks.contains (some w))

end LeagueTable

/-- One external strategy object, specified as an interface only: whether it
is active, the tickets its `on_event` poll produces, and the rounds its
`get_required_weeks` reports. -/
structure Player where
  active : Bool
  tickets : List Nat
  required_weeks : List Nat
  deriving DecidableEq, Repr

/-- A pending results or history request ledger entry: the payload snapshot
(anchor block and cursor) and the retry count. -/
structure ResultReq where
  e_block : Option Nat
  n : Int
  retry_count : Nat
  deriving DecidableEq, Repr

/-- The observable side effects of one handler run, in order: outbound
requests, sleeps, and calls to the external collaborators. -/
inductive Action where
  | sleep (secs : Nat)
  | awaitEventTime
  | sendEvents (n : Int)
  | sendResult (e_block : Option Nat) (n : Int)
  | sendHistory (e_block : Option Nat) (n : Int)
  | notifyResult
  | validateTickets
  | storeLeague
  | resumingTickets
  | resetCompetitionTickets
  | processTickets (tickets : List Nat)
  deriving DecidableEq, Repr

/-- The mutable state of a `LeagueCompetition` instance that the claims are
about, fields named as in `__init__`.  `next_xs` models the platform-assigned
request-id counter returned by `user.send`. -/
structure EngineState where
  max_week : Nat
  e_block_id : Option Nat
  league : Option Nat
  week : Option Nat
  event_time : Option Nat
  event_time_enabled : Bool
  event_time_interval : Nat
  caching : Bool
  cached : Bool
  caching_future : Bool
  caching_multiple : Bool
  future_results : Bool
  fetching_future : Bool
  auto_skip : Bool
  restoring : Bool
  phase : Nat
  required_weeks : List Nat
  history_count : Nat
  max_history_count : Nat
  next_xs : Nat
  event_xs : List (Nat × Int)
  result_xs : List (Nat × ResultReq)
  history_xs : List (Nat × ResultReq)
  stats_xs : List (Nat × Int)
  team_labels : List (Nat × String)
  active_tickets : List Nat
  blocks : List (Option Nat × Option Nat)
  league_games : List (Option Nat × List (Nat × MatchRec))
  table : LeagueTable
  players : List Player
  deriving DecidableEq, Repr

/-- External inputs of one handler run: the wall clock read by
`process_event_time`, and the account collaborator answers consulted by the
resume path (`user.demo`, `user.resume_competition`). -/
structure Env where
  now : Nat
  demo : Bool
  resume_ok : Bool
  deriving DecidableEq, Repr

/-- The outcome of one handler run: normal completion, an uncaught `KeyError`
from resolving an absent request id (the spec's `UnknownRequest`), or an
uncaught parse error; each constructor carries the state and actions as they
stood when the handler finished or the exception escaped. -/
inductive COut where
  | ok (s : EngineState) (as : List Action)
  | unknownRequest (s : EngineState) (as : List Action)
  | crashed (s : EngineState) (as : List Action)
  deriving DecidableEq, Repr

/-- The outcome of a fixtures-processing routine: normal completion or an
`InvalidEvents` exception (always caught by `events_callback`), with the
state and actions as they stood at the raise. -/
inductive POut where
  | ok (s : EngineState) (as : List Action)
  | invalid (s : EngineState) (as : List Action)
  deriving DecidableEq, Repr

/-- Registration half of `next_event`: `user.send` hands back the request id
(modelled by the `next_xs` counter) and the payload is remembered in
`event_xs`.  Of the remembered fixtures payload only the cursor `n` is ever
consulted again, so the ledger value is the cursor; note it carries no retry
count. -/
def next_event (s : EngineState) (n : Int) : EngineState × List Action :=
  ({ s with next_xs := s.next_xs + 1,
            event_xs := ainsert s.event_xs s.next_xs n },
   [Action.sendEvents n])

/-- `next_result`: register a results request (anchor block, cursor, retry
count) and send it. -/
def next_result (s : EngineState) (e_block : Option Nat) (n : Int)
    (retry_count : Nat) : EngineState × List Action :=
  ({ s with next_xs := s.next_xs + 1,
            result_xs := ainsert s.result_xs s.next_xs ⟨e_block, n, retry_count⟩ },
   [Action.sendResult e_block n])

/-- `next_history`: register a history request and send it. -/
def next_history (s : EngineState) (e_block : Option Nat) (n : Int)
    (retry_count : Nat) : EngineState × List Action :=
  ({ s with next_xs := s.next_xs + 1,
            history_xs := ainsert s.history_xs s.next_xs ⟨e_block, n, retry_count⟩ },
   [Action.sendHistory e_block n])

/-- `next_block_event` with its default cursor 1. -/
def next_block_event (s : EngineState) : EngineState × List Action :=
  next_event s 1

/-- `next_block_result` with its default cursor 1: await the event time, then
request results for the current block. -/
def next_block_result (s : EngineState) : EngineState × List Action :=
  let r := next_result s s.e_block_id 1 0
  (r.1, Action.awaitEventTime :: r.2)

/-- `next_block_future` with its default cursor 10. -/
def next_block_future (s : EngineState) (e_block_id : Option Nat) :
    EngineState × List Action :=
  next_history s e_block_id 10 0

/-- `get_missing_blocks`: all weeks in `[1, max_week]` that no observed block
maps to.  The Python set difference has arbitrary order; both call sites only
test emptiness, so ascending order is used here. -/
def get_missing_blocks (s : EngineState) : List Nat :=
  (List.range' 1 s.max_week).filter
    (fun w => decide (¬ (s.blocks.map (fun p => p.2)).contains (some w)))

/-- `get_block_by_week`: the first block mapped to the given week, `None`
when there is none (Python's implicit fall-through return). -/
def get_block_by_week (s : EngineState) (week : Nat) : Option Nat :=
  ((s.blocks.find? (fun p => decide (p.2 = some week))).map (fun p => p.1)).join

/-- `get_week_by_block`: `self.blocks.get(e_block_id, None)`; a stored `None`
value and an absent key are indistinguishable, exactly as in Python. -/
def get_week_by_block (s : EngineState) (e_block_id : Option Nat) : Option Nat :=
  (alookup s.blocks e_block_id).join

/-- `process_missing`: the backfill anchor policy.  The cached branch
iterates `self.blocks.items()` binding the key as `week` and the value as
`e_block`, although `blocks` maps block ids to weeks; the comparison and the
returned value follow the source as written.  Both branches can fall through
to Python's implicit `None`.  Call sites pass a non-empty `missing`, so
`max(missing)` is modelled by a fold from 0. -/
def process_missing (s : EngineState) (missing : List Nat) : Option Nat :=
  if s.cached then
    let w := missing.foldl Nat.max 0
    ((s.blocks.find? (fun p => decide (p.1 = some w))).map (fun p => p.2)).join
  else
    match s.table.get_min_block with
    | none => s.e_block_id
    | some b => some b

/-- `get_required_weeks`: ask every installed strategy for the weeks it
needs and return the complement in `[1, max_week]` (again a Python set
difference whose order no caller observes). -/
def get_required_weeks (s : EngineState) : List Nat :=
  let used_weeks := s.players.foldl (fun acc p => acc ++ p.required_weeks) ([] : List Nat)
  (List.range' 1 s.max_week).filter (fun w => decide (¬ used_weeks.contains w))

/-- `process_tickets`: reset the locally registered tickets, then register
each ticket with the user and ticket-manager collaborators and remember its
key. -/
def process_tickets (s : EngineState) (tickets : List Nat) :
    EngineState × List Action :=
  ({ s with active_tickets := tickets }, [Action.processTickets tickets])

/-- One iteration of the `get_future_weeks` loop: a fixed 2 s delay, then a
results request for the block mapped to the week. -/
def future_week_step (acc : EngineState × List Action) (w : Nat) :
    EngineState × List Action :=
  let r := next_result acc.1 (get_block_by_week acc.1 w) 1 0
  (r.1, acc.2 ++ [Action.sleep 2] ++ r.2)

/-- `get_future_weeks`: latch `fetching_future` and issue one results request
per week, each after a fixed 2 s delay (the spawned task is modelled as
running to completion). -/
def get_future_weeks (s : EngineState) (weeks : List Nat) :
    EngineState × List Action :=
  weeks.foldl future_week_step ({ s with fetching_future := true }, ([] : List Action))

/-- `dispatch_events`: the shared dispatch-evaluation tail. -/
def dispatch_events (s : EngineState) : EngineState × List Action :=
  let missing_blocks := get_missing_blocks s
  if missing_blocks.isEmpty = false then
    next_block_future { s with caching_future := true, cached := false } s.e_block_id
  else
    let not_ready := s.table.check_weeks s.required_weeks
    if s.future_results && (not_ready.isEmpty = false) then
      get_future_weeks s not_ready
    else
      let s := { s with history_count := 0 }
      let tickets_pool := s.players.foldl
        (fun acc p => if p.active then acc ++ p.tickets else acc) ([] : List Nat)
      if tickets_pool.isEmpty = false then
        process_tickets { s with phase := TICKETS } tickets_pool
      else
        next_block_result { s with phase := RESULTS }

/-- Test for the correct-score market-id range `range(15, 43)` intersected
with `wonMarkets`. -/
def in_cs_range (m : Nat) : Bool :=
  decide (15 ≤ m) && decide (m ≤ 42)

/-- The event loop of one history entry: build the per-event fixture records
and, in caching mode, the result records.  `none` models the `IndexError`
Python raises when a result has an empty correct-score intersection. -/
def parse_history_events (caching : Bool) (idx : Nat) :
    List HistoryEvent →
    Option (List (Nat × MatchRec) × List (Nat × ResultRec) ×
            List (Nat × List Nat) × List (Nat × HandicapData))
  | [] => some ([], [], [], [])
  | e :: rest =>
    match parse_history_events caching (idx + 1) rest with
    | none => none
    | some r =>
      let m : MatchRec := ⟨e.f1, e.f2, e.oddValues, idx⟩
      if caching then
        match e.result with
        | some hr =>
          match (hr.won.filter in_cs_range).head? with
          | none => none
          | some z =>
            some ((e.eventId, m) :: r.1,
                  (e.eventId, ⟨e.eventId, some e.f1, some e.f2, z⟩) :: r.2.1,
                  (e.eventId, hr.won) :: r.2.2.1,
                  (e.eventId, ⟨hr.half_lost, hr.half_won, hr.refund⟩) :: r.2.2.2)
        | none => some ((e.eventId, m) :: r.1, r.2.1, r.2.2.1, r.2.2.2)
      else some ((e.eventId, m) :: r.1, r.2.1, r.2.2.1, r.2.2.2)

/-- One iteration of `resource_history_process`'s entry loop.  Entries whose
league differs from the tracked league are silently dropped.  The Bool is
true when the Python body would raise, with the state as mutated up to the
raise (the block mapping is recorded before the event loop runs). -/
def history_entry_step (s : EngineState) (wr : WeekResult) : EngineState × Bool :=
  let league := wr.data.leagueId
  let week := wr.data.matchDay
  if league = s.league then
    let s1 := { s with blocks := ainsert s.blocks wr.eBlockId week }
    match parse_history_events s1.caching 0 wr.events with
    | none => (s1, true)
    | some r =>
      let s2 := { s1 with league_games := ainsert s1.league_games week r.1 }
      if s2.caching then
        ({ s2 with table := s2.table.feed_result wr.eBlockId league week r.2.1 r.2.2.1 r.2.2.2 },
         false)
      else (s2, false)
  else (s, false)

/-- The entry loop of `resource_history_process`; stops at the first raising
entry. -/
def history_fold : EngineState → List WeekResult → EngineState × Bool
  | s, [] => (s, false)
  | s, wr :: rest =>
    let r := history_entry_step s wr
    if r.2 then (r.1, true) else history_fold r.1 rest

/-- `resource_history_process`.  The `e_block`/`n` arguments are kept from
the call signature; the source only appends `e_block` to a local list it
never reads.  In the caching-future continuation Python computes
`max(set(self.blocks.keys()))`, modelled as the maximum present key (an
absent or `None`-containing key set would raise, outside every claim). -/
def resource_history_process (s : EngineState) (_e_block : Option Nat) (_n : Int)
    (data : List WeekResult) : COut :=
  let r := history_fold s data
  if r.2 then COut.crashed r.1 [] else
  let s := r.1
  if s.caching then
    let missing := s.table.get_missing_weeks
    if missing.isEmpty = false then
      let e_block_id := process_missing s missing
      let r2 := next_history s e_block_id (-10) 0
      COut.ok r2.1 r2.2
    else
      let r2 := dispatch_events { s with caching := false }
      COut.ok r2.1 r2.2
  else
    if s.caching_future then
      let missing_blocks := get_missing_blocks s
      if missing_blocks.isEmpty = false then
        let block_id := (s.blocks.filterMap (fun p => p.1)).foldl Nat.max 0
        let r2 := next_block_future s (some block_id)
        COut.ok r2.1 r2.2
      else
        let s := { s with caching_future := false, cached := true }
        let s := { s with required_weeks := get_required_weeks s }
        let r2 := dispatch_events s
        COut.ok r2.1 r2.2
    else COut.ok s []

/-- `process_event_time`: derive the event timestamp from the payload or the
wall clock. -/
def process_event_time (s : EngineState) (env : Env) (event_time : Option Nat) :
    EngineState :=
  match event_time with
  | none =>
    if s.event_time_enabled then
      { s with event_time := some (env.now + s.event_time_interval) }
    else { s with event_time := some env.now }
  | some t => { s with event_time := some t }

/-- One iteration of the multi-round catch-up fan-out in
`resource_events_process`: a results request for the block mapped to the
missing week. -/
def multi_result_step (acc : EngineState × List Action) (w : Nat) :
    EngineState × List Action :=
  let r := next_result acc.1 (get_block_by_week acc.1 w) 1 0
  (r.1, acc.2 ++ r.2)

/-- The team-label loop of `resource_events_process`: remember each
participant's label the first time its id is seen. -/
def update_team_labels (tl : List (Nat × String)) (events : List EventItem) :
    List (Nat × String) :=
  events.foldl
    (fun acc e =>
      let acc1 := if (alookup acc e.p1).isNone then ainsert acc e.p1 e.f1 else acc
      if (alookup acc1 e.p2).isNone then ainsert acc1 e.p2 e.f2 else acc1)
    tl

/-- The league id a fixtures payload carries: `data.get('leagueId', None)`
behind the truthiness check of the `data` dictionary. -/
def events_league (d : EventsData) : Option Nat :=
  match d.data with
  | some ld => ld.leagueId
  | none => none

/-- The match day a fixtures payload carries. -/
def events_match_day (d : EventsData) : Option Nat :=
  match d.data with
  | some ld => ld.matchDay
  | none => none

/-- The league-change block of `resource_events_process`: when the observed
league differs from the tracked one (or none is truthy-tracked), clear the
auto-skip latch on match day 1 and perform the hard reset of fixture, block,
cached-completeness and required-rounds state before adopting the new league
id. -/
def events_reset (s : EngineState) (league0 match_day : Option Nat) : EngineState :=
  if league0 = s.league ∧ truthy s.league = true then s
  else
    let s := if match_day = some 1 then { s with auto_skip := false } else s
    { s with league_games := [], blocks := [], cached := false,
             required_weeks := [], league := league0 }

/-- The non-auto-skip tail of `resource_events_process`: notify the table,
then dispatch, fan out the multi-round catch-up, or start a single-round
backfill depending on the missing weeks and the cached flag. -/
def events_table_branch (s : EngineState) (stats : List (Nat × Nat)) : POut :=
  let t := (s.table.on_event s.league s.week).feed_stats s.league s.week stats
  let s := { s with table := t }
  let missing := s.table.get_missing_weeks
  if missing.isEmpty then
    let r := dispatch_events s
    POut.ok r.1 r.2
  else
    if s.cached then
      let s := { s with caching_multiple := true }
      let r := missing.foldl multi_result_step (s, ([] : List Action))
      POut.ok r.1 r.2
    else
      let s := { s with caching := true }
      let e_block_id := process_missing s missing
      let r := next_history s e_block_id (-10) 0
      POut.ok r.1 r.2

/-- The post-reset stage of `resource_events_process`: record the week, the
event time, the per-event stats and team labels, then either run the
auto-skip shortcut or hand over to the table branch. -/
def events_process_core (s : EngineState) (env : Env) (d : EventsData) : POut :=
  let s := { s with week := events_match_day d }
  let s := process_event_time s env d.eventTime
  let stats := d.events.map (fun e => (e.eventId, e.stats))
  let s := { s with team_labels := update_team_labels s.team_labels d.events }
  if s.auto_skip then
    let r := next_block_result { s with phase := RESULTS }
    POut.ok r.1 r.2
  else
    events_table_branch s stats

/-- `resource_events_process`: validate the payload, apply the league-change
reset, then run the post-reset stage. -/
def resource_events_process (s : EngineState) (env : Env) (d : EventsData) : POut :=
  let league0 := events_league d
  let match_day := events_match_day d
  if truthy d.eBlockId && truthy league0 && truthy match_day then
    events_process_core
      (events_reset { s with e_block_id := d.eBlockId } league0 match_day) env d
  else POut.invalid s []

/-- The event loop of `resource_result_process`: recover team labels from the
settlement URL ids and extract the won markets.  `none` models the
`IndexError` on an empty correct-score intersection. -/
def parse_result_events (labels : List (Nat × String)) :
    List ResultEvent →
    Option (List (Nat × ResultRec) × List (Nat × List Nat) ×
            List (Nat × HandicapData))
  | [] => some ([], [], [])
  | e :: rest =>
    match (e.won.filter in_cs_range).head? with
    | none => none
    | some z =>
      match parse_result_events labels rest with
      | none => none
      | some r =>
        some ((e.eventId, ⟨e.eventId, alookup labels e.videoA, alookup labels e.videoB, z⟩) :: r.1,
              (e.eventId, e.won) :: r.2.1,
              (e.eventId, ⟨e.half_lost, e.half_won, e.refund⟩) :: r.2.2)

/-- `resource_result_process`: parse the result payload, then either run the
auto-skip shortcut or record the result and evaluate the catch-up, prefetch
or normal continuation. -/
def resource_result_process (s : EngineState) (d : ResultsData) : COut :=
  let e_block_id := d.eBlockId
  let week := get_week_by_block s e_block_id
  match parse_result_events s.team_labels d.events with
  | none => COut.crashed s []
  | some parsed =>
    if s.auto_skip then
      let r := next_block_event { s with phase := EVENTS }
      COut.ok r.1 r.2
    else
      let s := { s with table := s.table.feed_result e_block_id s.league week
                          parsed.1 parsed.2.1 parsed.2.2 }
      if s.caching_multiple then
        if (s.table.get_missing_weeks).isEmpty then
          let r := dispatch_events { s with caching_multiple := false }
          COut.ok r.1 r.2
        else COut.ok s []
      else
        if s.fetching_future then
          if (s.table.check_weeks s.required_weeks).isEmpty then
            let r := dispatch_events { s with fetching_future := false }
            COut.ok r.1 r.2
          else COut.ok s []
        else
          let a1 := s.players.foldl
            (fun acc p => if p.active then acc ++ [Action.notifyResult] else acc)
            ([] : List Action)
          let a1 := a1 ++ [Action.validateTickets]
          let a2 := if s.week = some s.max_week then
              (if s.table.is_complete then [Action.storeLeague] else [])
            else []
          if e_block_id = s.e_block_id then
            let r := next_block_event { s with phase := EVENTS }
            COut.ok r.1 (a1 ++ a2 ++ r.2)
          else COut.ok s (a1 ++ a2)

/-- `resource_events_process_resume`: leave restore mode; on a matching block
resume at the results-await point (consulting the account collaborator when
not in demo mode), otherwise reset the registered tickets and reprocess the
payload as a fresh fixtures event. -/
def resource_events_process_resume (s : EngineState) (env : Env) (d : EventsData) :
    POut :=
  let s := { s with restoring := false }
  if d.eBlockId = s.e_block_id then
    if env.demo = false then
      if env.resume_ok then POut.ok s [Action.resumingTickets]
      else
        let r := next_block_result s
        POut.ok r.1 r.2
    else
      let r := next_block_result s
      POut.ok r.1 r.2
  else
    let s := { s with active_tickets := [] }
    match resource_events_process s env d with
    | POut.ok s2 as => POut.ok s2 (Action.resetCompetitionTickets :: as)
    | POut.invalid s2 as => POut.invalid s2 (Action.resetCompetitionTickets :: as)

/-- `events_callback`: pop the ledger entry (a `KeyError` when absent), then
process the payload; a malformed or empty payload — `valid_response` false,
a non-list body, an empty batch, a non-dict first element, or an
`InvalidEvents` raised during processing — is retried after a fixed 2 s
delay with the same cursor. -/
def events_callback (s : EngineState) (env : Env) (xs : Nat)
    (resp : Option EventsData) : COut :=
  match alookup s.event_xs xs with
  | none => COut.unknownRequest s []
  | some n =>
    let s := { s with event_xs := aerase s.event_xs xs }
    match resp with
    | none =>
      let r := next_event s n
      COut.ok r.1 (Action.sleep 2 :: r.2)
    | some d =>
      match (if s.restoring then resource_events_process_resume s env d
             else resource_events_process s env d) with
      | POut.ok s2 as => COut.ok s2 as
      | POut.invalid s2 as =>
        let r := next_event s2 n
        COut.ok r.1 (as ++ [Action.sleep 2] ++ r.2)

/-- `results_callback`: pop the ledger entry (a `KeyError` when absent); a
malformed or empty payload is retried after a fixed 3 s delay with the retry
count incremented while the popped count is at most 3, otherwise auto-skip
is latched and the next fixtures are requested. -/
def results_callback (s : EngineState) (xs : Nat) (resp : Option ResultsData) :
    COut :=
  match alookup s.result_xs xs with
  | none => COut.unknownRequest s []
  | some req =>
    let s := { s with result_xs := aerase s.result_xs xs }
    match resp with
    | some d => resource_result_process s d
    | none =>
      if req.retry_count > 3 then
        let r := next_block_event { s with auto_skip := true }
        COut.ok r.1 r.2
      else
        let r := next_result s req.e_block req.n (req.retry_count + 1)
        COut.ok r.1 (Action.sleep 3 :: r.2)

/-- `history_callback`: the tripwire check runs before the ledger pop and has
no early return — when `history_count` exceeds the maximum it latches
auto-skip and requests the next fixtures, and then the body is still popped
and processed.  Malformed payloads follow the same bounded retry rule as
results. -/
def history_callback (s : EngineState) (xs : Nat)
    (resp : Option (List WeekResult)) : COut :=
  let r0 := if s.history_count > s.max_history_count then
      next_block_event { s with auto_skip := true }
    else (s, ([] : List Action))
  let s := r0.1
  let a0 := r0.2
  match alookup s.history_xs xs with
  | none => COut.unknownRequest s a0
  | some req =>
    let s := { s with history_xs := aerase s.history_xs xs }
    match resp with
    | some data =>
      match resource_history_process s req.e_block req.n data with
      | COut.ok s2 as => COut.ok s2 (a0 ++ as)
      | COut.unknownRequest s2 as => COut.unknownRequest s2 (a0 ++ as)
      | COut.crashed s2 as => COut.crashed s2 (a0 ++ as)
    | none =>
      if req.retry_count > 3 then
        let r := next_block_event { s with auto_skip := true }
        COut.ok r.1 (a0 ++ r.2)
      else
        let r := next_history s req.e_block req.n (req.retry_count + 1)
        COut.ok r.1 (a0 ++ [Action.sleep 3] ++ r.2)

/-- One asynchronous response delivery, tagged by resource kind as in
`receive`. -/
inductive Delivery where
  | events (xs : Nat) (resp : Option EventsData)
  | results (xs : Nat) (resp : Option ResultsData)
  | history (xs : Nat) (resp : Option (List WeekResult))
  | stats (xs : Nat)
  deriving DecidableEq, Repr

/-- `receive`: route a delivery to the handler named after its resource kind.
Modelled from the spec for the name mapping (vbet/utils/parser.py is not
under src/): the kinds map to the names events, results, history and stats.
The class defines no stats handler, so the reflective lookup raises
`AttributeError`, which `receive` swallows — a stats response is dropped
without touching the ledger. -/
def receive (s : EngineState) (env : Env) : Delivery → COut
  | Delivery.events xs resp => events_callback s env xs resp
  | Delivery.results xs resp => results_callback s xs resp
  | Delivery.history xs resp => history_callback s xs resp
  | Delivery.stats _ => COut.ok s []

/-- The state a handler outcome carries. -/
def cout_state : COut → EngineState
  | COut.ok s _ => s
  | COut.unknownRequest s _ => s
  | COut.crashed s _ => s

/-- The actions a handler outcome carries. -/
def cout_actions : COut → List Action
  | COut.ok _ as => as
  | COut.unknownRequest _ as => as
  | COut.crashed _ as => as

/-- Whether a handler outcome is the `UnknownRequest` failure. -/
def cout_is_unknown : COut → Bool
  | COut.unknownRequest _ _ => true
  | _ => false

/-- The state a fixtures-processing outcome carries. -/
def pout_state : POut → EngineState
  | POut.ok s _ => s
  | POut.invalid s _ => s

/-- The actions a fixtures-processing outcome carries. -/
def pout_actions : POut → List Action
  | POut.ok _ as => as
  | POut.invalid _ as => as

/-- Deliver one invalid results response to the given pending request id and
step to the successor state, tracking the id of the re-issued request. -/
def invalid_result_step (p : EngineState × Nat) : EngineState × Nat :=
  match results_callback p.1 p.2 none with
  | COut.ok s2 _ => (s2, p.1.next_xs)
  | COut.unknownRequest s2 _ => (s2, p.2)
  | COut.crashed s2 _ => (s2, p.2)

/-- Iterate `invalid_result_step`. -/
def iterate_invalid_results : Nat → (EngineState × Nat) → (EngineState × Nat)
  | 0, p => p
  | k + 1, p => iterate_invalid_results k (invalid_result_step p)

/-- Deliver one invalid fixtures response to the given pending request id and
step to the successor state, tracking the id of the re-issued request. -/
def invalid_events_step (env : Env) (p : EngineState × Nat) : EngineState × Nat :=
  match events_callback p.1 env p.2 none with
  | COut.ok s2 _ => (s2, p.1.next_xs)
  | COut.unknownRequest s2 _ => (s2, p.2)
  | COut.crashed s2 _ => (s2, p.2)

/-- Iterate `invalid_events_step`. -/
def iterate_invalid_events (env : Env) : Nat → (EngineState × Nat) → (EngineState × Nat)
  | 0, p => p
  | k + 1, p => iterate_invalid_events env k (invalid_events_step env p)

/-- A concrete table tracking league 7 with nothing recorded yet, for the
concrete instances below. -/
def tableA : LeagueTable := ⟨34, some 7, [], [], [], []⟩

/-- A concrete engine state: league 7, week 4, current block 50, no pending
requests, all mode flags off. -/
def stateA : EngineState := {
  max_week := 34, e_block_id := some 50, league := some 7, week := some 4,
  event_time := none, event_time_enabled := true, event_time_interval := 0,
  caching := false, cached := false, caching_future := false,
  caching_multiple := false, future_results := true, fetching_future := false,
  auto_skip := false, restoring := false, phase := RESULTS,
  required_weeks := [], history_count := 0, max_history_count := 5,
  next_xs := 10, event_xs := [], result_xs := [], history_xs := [],
  stats_xs := [], team_labels := [], active_tickets := [], blocks := [],
  league_games := [], table := tableA, players := [] }

/-- A concrete environment: demo mode, no resumable ticket. -/
def envA : Env := ⟨1000, true, false⟩

/-- `stateA` with one pending results request for block 50, cursor 1, retry
count 0 (a freshly issued request), under ledger id 0. -/
def c1s0 : EngineState := { stateA with result_xs := [(0, ⟨some 50, 1, 0⟩)] }

/-- `stateA` in the fully-cached mode with the single observed block 100
mapped to round 3. -/
def c2s : EngineState := { stateA with cached := true, blocks := [(some 100, some 3)] }

/-- `stateA` in single-round backfill mode with the backfill-iteration
counter already beyond the maximum (6 > 5) and a pending history request
under ledger id 0. -/
def c4s : EngineState := { stateA with
  history_count := 6,
  caching := true,
  history_xs := [(0, ⟨some 40, -10, 0⟩)] }

/-- A valid history body carrying one entry of the tracked league 7: block
777, round 2, no events. -/
def c4body : List WeekResult := [⟨some 777, ⟨some 7, some 2⟩, []⟩]

/-- `stateA` in backfill mode with the counter at 0 and a pending history
request, to exhibit that a backfill iteration leaves the counter at 0. -/
def c4n : EngineState := { stateA with
  caching := true,
  history_xs := [(0, ⟨some 40, -10, 0⟩)] }

/-- Two engine states that differ at most in the request-id counter and the
results ledger — the footprint of `next_result`. -/
def result_only_diff (s s2 : EngineState) : Prop :=
  s2.max_week = s.max_week ∧ s2.e_block_id = s.e_block_id ∧
  s2.league = s.league ∧ s2.week = s.week ∧ s2.event_time = s.event_time ∧
  s2.event_time_enabled = s.event_time_enabled ∧
  s2.event_time_interval = s.event_time_interval ∧
  s2.caching = s.caching ∧ s2.cached = s.cached ∧
  s2.caching_future = s.caching_future ∧
  s2.caching_multiple = s.caching_multiple ∧
  s2.future_results = s.future_results ∧
  s2.fetching_future = s.fetching_future ∧
  s2.auto_skip = s.auto_skip ∧ s2.restoring = s.restoring ∧
  s2.phase = s.phase ∧ s2.required_weeks = s.required_weeks ∧
  s2.history_count = s.history_count ∧
  s2.max_history_count = s.max_history_count ∧
  s2.event_xs = s.event_xs ∧ s2.history_xs = s.history_xs ∧
  s2.stats_xs = s.stats_xs ∧ s2.team_labels = s.team_labels ∧
  s2.active_tickets = s.active_tickets ∧ s2.blocks = s.blocks ∧
  s2.league_games = s.league_games ∧ s2.table = s.table ∧
  s2.players = s.players

/-- A fixtures payload for a different league (league 8, match day 2, block
60) delivered to the league-7 state `stateA`. -/
def c3d : EventsData := ⟨some 60, some ⟨some 8, some 2⟩, some 5, []⟩

/-- `stateA` with block 200 observed for round 1 while the current fixtures
block is 100. -/
def c6s : EngineState := { stateA with blocks := [(some 200, some 1)], e_block_id := some 100 }

/-- A one-round league whose only round already has an observed block but no
satisfied result, with round 1 still required: the prefetch arm of dispatch
evaluation. -/
def c6p : EngineState := { stateA with
  max_week := 1,
  table := { tableA with max_week := 1 },
  blocks := [(some 50, some 1)],
  required_weeks := [1] }

/-- `c6p` with no required rounds pending: the strategy-polling arm. -/
def c6q : EngineState := { c6p with required_weeks := [] }

/-- `stateA` in restore mode with a pending fixtures request (id 5) and
block 5 already observed for round 2. -/
def c5s : EngineState := { stateA with
  restoring := true,
  event_xs := [(5, 1)],
  blocks := [(some 5, some 2)] }

/-- A resume response whose block id 99 differs from the last known block 50
but whose league id 7 matches the tracked league. -/
def c5d : EventsData := ⟨some 99, some ⟨some 7, some 3⟩, some 555, []⟩

/-- A restore-mode state for the matching-block arm of the resume policy. -/
def c5m : EngineState := { stateA with restoring := true }

/-- A resume response whose block id equals the last known block 50. -/
def c5dm : EventsData := ⟨some 50, some ⟨some 7, some 4⟩, some 555, []⟩

/-- A non-demo environment whose account collaborator reports an in-flight
ticket. -/
def envB : Env := ⟨1000, false, true⟩

/-- A non-demo environment with no in-flight ticket. -/
def envC : Env := ⟨1000, false, false⟩

/-- A restore-mode league-change payload: block 99, league 8, match day 3,
against the league-7 state `c5s`. -/
def c5dc : EventsData := ⟨some 99, some ⟨some 8, some 3⟩, some 555, []⟩

/-- No results request among the actions targets block `b`. -/
def no_result_for (b : Nat) (as : List Action) : Prop :=
  ∀ (e : Option Nat) (n : Int), Action.sendResult e n ∈ as → e ≠ some b

/-- The latched-mode invariant after a round anchored at block `b` has been
abandoned: auto-skip is latched, the engine is not restoring, no history
request is pending, and no pending results request targets `b`. -/
def C7Inv (b : Nat) (s : EngineState) : Prop :=
  s.auto_skip = true ∧ s.restoring = false ∧ s.history_xs = [] ∧
  (∀ p ∈ s.result_xs, p.2.e_block ≠ some b)

/-- A delivery whose fixtures payload (if any) does not carry block `b` —
the feed serves fresh rounds under fresh blocks, and a block id is never
reused for a different round. -/
def delivery_avoids (b : Nat) : Delivery → Prop
  | Delivery.events _ (some d) => d.eBlockId ≠ some b
  | _ => True

/-- `stateA` with one pending fixtures request (cursor 1) under ledger
id 5. -/
def c9s : EngineState := { stateA with event_xs := [(5, 1)] }

/-- Freshness of later ledger states over `s`: the request-id counter only
grows, and an id below `s.next_xs` that is absent from a ledger of `s` stays
absent — newly registered entries always use fresh ids. -/
def ledgers_fresh (s s2 : EngineState) : Prop :=
  s.next_xs ≤ s2.next_xs ∧
  (∀ x, x < s.next_xs → alookup s.event_xs x = none → alookup s2.event_xs x = none) ∧
  (∀ x, x < s.next_xs → alookup s.result_xs x = none → alookup s2.result_xs x = none) ∧
  (∀ x, x < s.next_xs → alookup s.history_xs x = none → alookup s2.history_xs x = none)

/-- A pending results request for block 50 whose retry count is already 4:
the next failure latches auto-skip. -/
def c7s0 : EngineState := { stateA with result_xs := [(0, ⟨some 50, 1, 4⟩)] }

/-- A latched state with one pending (non-abandoned) results request for
block 50; the abandoned block of the witness is 77. -/
def c7s : EngineState := { stateA with
  auto_skip := true,
  result_xs := [(4, ⟨some 50, 1, 0⟩)] }

/-- An invalid results delivery for the pending request of `c7s`. -/
def c7d : Delivery := Delivery.results 4 none

/-- A latched state with no pending requests, for the latched-results arm. -/
def c7r : EngineState := { stateA with auto_skip := true }

/-- An empty results payload for block 50, delivered while latched. -/
def c7rd : ResultsData := ⟨some 50, []⟩

/-- `stateA` with the auto-skip flag latched. -/
def c10s : EngineState := { stateA with auto_skip := true }

/-- A fixtures payload that clears the latch: league change to 8, match
day 1. -/
def c10clear : EventsData := ⟨some 60, some ⟨some 8, some 1⟩, some 5, []⟩

/-- A same-league fixtures payload (league 7, match day 5). -/
def c10same : EventsData := ⟨some 60, some ⟨some 7, some 5⟩, some 5, []⟩

/-- An empty results payload for block 50. -/
def c10r : ResultsData := ⟨some 50, []⟩

/-- A one-entry history body for the tracked league (block 800, round 3). -/
def c10h : List WeekResult := [⟨some 800, ⟨some 7, some 3⟩, []⟩]

/-- `stateA` with one pending entry in every ledger: fixtures cursor 1 under
id 4, a results request under id 4, a history request under id 4, and a
stats request under id 42. -/
def c8s : EngineState := { stateA with
  event_xs := [(4, 1)],
  result_xs := [(4, ⟨some 50, 1, 0⟩)],
  history_xs := [(4, ⟨some 50, 1, 0⟩)],
  stats_xs := [(42, 7)] }

theorem alookup_ainsert_self {α β : Type} [DecidableEq α]
    (l : List (α × β)) (k : α) (v : β) : alookup (ainsert l k v) k = some v := by
  induction l with
  | nil => simp [alookup, ainsert]
  | cons hd tl ih =>
    by_cases hk : hd.1 = k
    · simp [ainsert, if_pos hk, alookup]
    · simp only [ainsert, if_neg hk, alookup, if_neg hk]
      exact ih

theorem alookup_ainsert_ne {α β : Type} [DecidableEq α]
    (l : List (α × β)) (k k' : α) (v : β) (h : k' ≠ k) :
    alookup (ainsert l k v) k' = alookup l k' := by
  have hne : ¬ (k = k') := fun hh => h hh.symm
  induction l with
  | nil => simp only [ainsert, alookup, if_neg hne]
  | cons hd tl ih =>
    by_cases hk : hd.1 = k
    · have hd_ne : ¬ (hd.1 = k') := by rw [hk]; exact hne
      simp only [ainsert, if_pos hk, alookup, if_neg hne, if_neg hd_ne]
    · by_cases hd' : hd.1 = k'
      · simp only [ainsert, if_neg hk, alookup, if_pos hd']
      · simp only [ainsert, if_neg hk, alookup, if_neg hd']
        exact ih

theorem alookup_aerase_self {α β : Type} [DecidableEq α]
    (l : List (α × β)) (k : α) : alookup (aerase l k) k = none := by
  induction l with
  | nil => simp [alookup, aerase]
  | cons hd tl ih =>
    by_cases hk : hd.1 = k
    · simp only [aerase, if_pos hk]
      exact ih
    · simp only [aerase, if_neg hk, alookup, if_neg hk]
      exact ih

theorem alookup_aerase_ne {α β : Type} [DecidableEq α]
    (l : List (α × β)) (k k' : α) (h : k' ≠ k) :
    alookup (aerase l k) k' = alookup l k' := by
  induction l with
  | nil => simp [aerase]
  | cons hd tl ih =>
    by_cases hk : hd.1 = k
    · have hd_ne : ¬ (hd.1 = k') := by
        rw [hk]; exact fun hh => h hh.symm
      simp only [aerase, if_pos hk, alookup, if_neg hd_ne]
      exact ih
    · by_cases hd' : hd.1 = k'
      · simp only [aerase, if_neg hk, alookup, if_pos hd']
      · simp only [aerase, if_neg hk, alookup, if_neg hd']
        exact ih

theorem alookup_mem {α β : Type} [DecidableEq α] {l : List (α × β)} {k : α} {v : β}
    (h : alookup l k = some v) : (k, v) ∈ l := by
  induction l with
  | nil => simp [alookup] at h
  | cons hd tl ih =>
    by_cases hk : hd.1 = k
    · simp only [alookup, if_pos hk, Option.some.injEq] at h
      have : hd = (k, v) := by
        cases hd
        simp_all
      simp [this]
    · simp only [alookup, if_neg hk] at h
      exact List.mem_cons_of_mem _ (ih h)

theorem mem_ainsert {α β : Type} [DecidableEq α] {l : List (α × β)} {k : α} {v : β}
    {p : α × β} (h : p ∈ ainsert l k v) : p = (k, v) ∨ p ∈ l := by
  induction l with
  | nil =>
    simp [ainsert] at h
    left
    exact h
  | cons hd tl ih =>
    by_cases hk : hd.1 = k
    · simp only [ainsert, if_pos hk, List.mem_cons] at h
      rcases h with h | h
      · left; exact h
      · right; exact List.mem_cons_of_mem _ h
    · simp only [ainsert, if_neg hk, List.mem_cons] at h
      rcases h with h | h
      · right; simp [h]
      · rcases ih h with h2 | h2
        · left; exact h2
        · right; exact List.mem_cons_of_mem _ h2

theorem mem_aerase {α β : Type} [DecidableEq α] {l : List (α × β)} {k : α}
    {p : α × β} (h : p ∈ aerase l k) : p ∈ l := by
  induction l with
  | nil => simp [aerase] at h
  | cons hd tl ih =>
    by_cases hk : hd.1 = k
    · simp only [aerase, if_pos hk] at h
      exact List.mem_cons_of_mem _ (ih h)
    · simp only [aerase, if_neg hk, List.mem_cons] at h
      rcases h with h | h
      · simp [h]
      · exact List.mem_cons_of_mem _ (ih h)

@[simp] theorem pet_max_week (s : EngineState) (env : Env) (t : Option Nat) :
    (process_event_time s env t).max_week = s.max_week := by
  unfold process_event_time
  cases t
  · by_cases h : s.event_time_enabled <;> simp [h]
  · simp

@[simp] theorem pet_e_block_id (s : EngineState) (env : Env) (t : Option Nat) :
    (process_event_time s env t).e_block_id = s.e_block_id := by
  unfold process_event_time
  cases t
  · by_cases h : s.event_time_enabled <;> simp [h]
  · simp

@[simp] theorem pet_league (s : EngineState) (env : Env) (t : Option Nat) :
    (process_event_time s env t).league = s.league := by
  unfold process_event_time
  cases t
  · by_cases h : s.event_time_enabled <;> simp [h]
  · simp

@[simp] theorem pet_week (s : EngineState) (env : Env) (t : Option Nat) :
    (process_event_time s env t).week = s.week := by
  unfold process_event_time
  cases t
  · by_cases h : s.event_time_enabled <;> simp [h]
  · simp

@[simp] theorem pet_event_time_enabled (s : EngineState) (env : Env) (t : Option Nat) :
    (process_event_time s env t).event_time_enabled = s.event_time_enabled := by
  unfold process_event_time
  cases t
  · by_cases h : s.event_time_enabled <;> simp [h]
  · simp

@[simp] theorem pet_event_time_interval (s : EngineState) (env : Env) (t : Option Nat) :
    (process_event_time s env t).event_time_interval = s.event_time_interval := by
  unfold process_event_time
  cases t
  · by_cases h : s.event_time_enabled <;> simp [h]
  · simp

@[simp] theorem pet_caching (s : EngineState) (env : Env) (t : Option Nat) :
    (process_event_time s env t).caching = s.caching := by
  unfold process_event_time
  cases t
  · by_cases h : s.event_time_enabled <;> simp [h]
  · simp

@[simp] theorem pet_cached (s : EngineState) (env : Env) (t : Option Nat) :
    (process_event_time s env t).cached = s.cached := by
  unfold process_event_time
  cases t
  · by_cases h : s.event_time_enabled <;> simp [h]
  · simp

@[simp] theorem pet_caching_future (s : EngineState) (env : Env) (t : Option Nat) :
    (process_event_time s env t).caching_future = s.caching_future := by
  unfold process_event_time
  cases t
  · by_cases h : s.event_time_enabled <;> simp [h]
  · simp

@[simp] theorem pet_caching_multiple (s : EngineState) (env : Env) (t : Option Nat) :
    (process_event_time s env t).caching_multiple = s.caching_multiple := by
  unfold process_event_time
  cases t
  · by_cases h : s.event_time_enabled <;> simp [h]
  · simp

@[simp] theorem pet_future_results (s : EngineState) (env : Env) (t : Option Nat) :
    (process_event_time s env t).future_results = s.future_results := by
  unfold process_event_time
  cases t
  · by_cases h : s.event_time_enabled <;> simp [h]
  · simp

@[simp] theorem pet_fetching_future (s : EngineState) (env : Env) (t : Option Nat) :
    (process_event_time s env t).fetching_future = s.fetching_future := by
  unfold process_event_time
  cases t
  · by_cases h : s.event_time_enabled <;> simp [h]
  · simp

@[simp] theorem pet_auto_skip (s : EngineState) (env : Env) (t : Option Nat) :
    (process_event_time s env t).auto_skip = s.auto_skip := by
  unfold process_event_time
  cases t
  · by_cases h : s.event_time_enabled <;> simp [h]
  · simp

@[simp] theorem pet_restoring (s : EngineState) (env : Env) (t : Option Nat) :
    (process_event_time s env t).restoring = s.restoring := by
  unfold process_event_time
  cases t
  · by_cases h : s.event_time_enabled <;> simp [h]
  · simp

@[simp] theorem pet_phase (s : EngineState) (env : Env) (t : Option Nat) :
    (process_event_time s env t).phase = s.phase := by
  unfold process_event_time
  cases t
  · by_cases h : s.event_time_enabled <;> simp [h]
  · simp

@[simp] theorem pet_required_weeks (s : EngineState) (env : Env) (t : Option Nat) :
    (process_event_time s env t).required_weeks = s.required_weeks := by
  unfold process_event_time
  cases t
  · by_cases h : s.event_time_enabled <;> simp [h]
  · simp

@[simp] theorem pet_history_count (s : EngineState) (env : Env) (t : Option Nat) :
    (process_event_time s env t).history_count = s.history_count := by
  unfold process_event_time
  cases t
  · by_cases h : s.event_time_enabled <;> simp [h]
  · simp

@[simp] theorem pet_max_history_count (s : EngineState) (env : Env) (t : Option Nat) :
    (process_event_time s env t).max_history_count = s.max_history_count := by
  unfold process_event_time
  cases t
  · by_cases h : s.event_time_enabled <;> simp [h]
  · simp

@[simp] theorem pet_next_xs (s : EngineState) (env : Env) (t : Option Nat) :
    (process_event_time s env t).next_xs = s.next_xs := by
  unfold process_event_time
  cases t
  · by_cases h : s.event_time_enabled <;> simp [h]
  · simp

@[simp] theorem pet_event_xs (s : EngineState) (env : Env) (t : Option Nat) :
    (process_event_time s env t).event_xs = s.event_xs := by
  unfold process_event_time
  cases t
  · by_cases h : s.event_time_enabled <;> simp [h]
  · simp

@[simp] theorem pet_result_xs (s : EngineState) (env : Env) (t : Option Nat) :
    (process_event_time s env t).result_xs = s.result_xs := by
  unfold process_event_time
  cases t
  · by_cases h : s.event_time_enabled <;> simp [h]
  · simp

@[simp] theorem pet_history_xs (s : EngineState) (env : Env) (t : Option Nat) :
    (process_event_time s env t).history_xs = s.history_xs := by
  unfold process_event_time
  cases t
  · by_cases h : s.event_time_enabled <;> simp [h]
  · simp

@[simp] theorem pet_stats_xs (s : EngineState) (env : Env) (t : Option Nat) :
    (process_event_time s env t).stats_xs = s.stats_xs := by
  unfold process_event_time
  cases t
  · by_cases h : s.event_time_enabled <;> simp [h]
  · simp

@[simp] theorem pet_team_labels (s : EngineState) (env : Env) (t : Option Nat) :
    (process_event_time s env t).team_labels = s.team_labels := by
  unfold process_event_time
  cases t
  · by_cases h : s.event_time_enabled <;> simp [h]
  · simp

@[simp] theorem pet_active_tickets (s : EngineState) (env : Env) (t : Option Nat) :
    (process_event_time s env t).active_tickets = s.active_tickets := by
  unfold process_event_time
  cases t
  · by_cases h : s.event_time_enabled <;> simp [h]
  · simp

@[simp] theorem pet_blocks (s : EngineState) (env : Env) (t : Option Nat) :
    (process_event_time s env t).blocks = s.blocks := by
  unfold process_event_time
  cases t
  · by_cases h : s.event_time_enabled <;> simp [h]
  · simp

@[simp] theorem pet_league_games (s : EngineState) (env : Env) (t : Option Nat) :
    (process_event_time s env t).league_games = s.league_games := by
  unfold process_event_time
  cases t
  · by_cases h : s.event_time_enabled <;> simp [h]
  · simp

@[simp] theorem pet_table (s : EngineState) (env : Env) (t : Option Nat) :
    (process_event_time s env t).table = s.table := by
  unfold process_event_time
  cases t
  · by_cases h : s.event_time_enabled <;> simp [h]
  · simp

@[simp] theorem pet_players (s : EngineState) (env : Env) (t : Option Nat) :
    (process_event_time s env t).players = s.players := by
  unfold process_event_time
  cases t
  · by_cases h : s.event_time_enabled <;> simp [h]
  · simp

/-- Claim C1, as stated, is false at a concrete trace: starting from a fresh
results request (retry count 0), after the 4th consecutive empty results
response the handler re-issues the same results request (with retry count 4)
after the 3 s delay — the next outbound request still targets results, not
fixtures, and auto-skip is not yet latched.  Auto-skip only fires on the
failure of that fifth request. -/
theorem C1_counterexample :
    cout_actions (results_callback (iterate_invalid_results 3 (c1s0, 0)).1
        (iterate_invalid_results 3 (c1s0, 0)).2 none)
      = [Action.sleep 3, Action.sendResult (some 50) 1] ∧
    (cout_state (results_callback (iterate_invalid_results 3 (c1s0, 0)).1
        (iterate_invalid_results 3 (c1s0, 0)).2 none)).auto_skip = false ∧
    Action.sendEvents 1 ∉
      cout_actions (results_callback (iterate_invalid_results 3 (c1s0, 0)).1
        (iterate_invalid_results 3 (c1s0, 0)).2 none) := by
  refine ⟨rfl, rfl, ?_⟩
  decide

/-- Claim C1 (amended): for every empty or malformed results response, if the
popped retry count is at most 3 the engine sleeps 3 s and re-issues the same
results request (same block id and cursor) with the retry count incremented
by 1; once the retry count exceeds 3 it instead latches auto-skip and issues
a fixtures request — so the switch to fixtures happens after the 5th
consecutive failure for a round (the failure of the request carrying retry
count 4), not the 4th. -/
theorem C1_retry_policy (s : EngineState) (xs : Nat) (req : ResultReq)
    (h : alookup s.result_xs xs = some req) :
    results_callback s xs none =
      if req.retry_count > 3 then
        COut.ok { s with result_xs := aerase s.result_xs xs,
                         auto_skip := true,
                         event_xs := ainsert s.event_xs s.next_xs 1,
                         next_xs := s.next_xs + 1 }
          [Action.sendEvents 1]
      else
        COut.ok { s with result_xs := ainsert (aerase s.result_xs xs) s.next_xs
                           ⟨req.e_block, req.n, req.retry_count + 1⟩,
                         next_xs := s.next_xs + 1 }
          [Action.sleep 3, Action.sendResult req.e_block req.n] := by
  simp only [results_callback, h]
  by_cases hr : req.retry_count > 3
  · simp [hr, next_block_event, next_event]
  · simp [hr, next_result]

/-- Witness for `C1_retry_policy` at the concrete state `c1s0`. -/
theorem C1_retry_policy_witness :
    results_callback c1s0 0 none =
      COut.ok { c1s0 with result_xs := [(10, ⟨some 50, 1, 1⟩)], next_xs := 11 }
        [Action.sleep 3, Action.sendResult (some 50) 1] :=
  C1_retry_policy c1s0 0 ⟨some 50, 1, 0⟩ rfl

/-- Claim C2 meets a code bug: with the table fully cached and block 100
mapped to the latest missing round 3, the backfill anchor should be block
100 (exactly what `get_block_by_week` computes), but `process_missing`
iterates `blocks.items()` with key and value swapped, compares the block id
against the round number, and falls through to `None`. -/
theorem C2_code_bug :
    c2s.cached = true ∧
    get_block_by_week c2s 3 = some 100 ∧
    process_missing c2s [3] = none := by
  exact ⟨rfl, rfl, rfl⟩

/-- Claim C4 meets a code bug: with the iteration counter beyond the maximum
the handler does latch auto-skip and request the next fixtures, but it lacks
an early return, so the in-flight history body is still popped and fully
processed — the response's block mapping is recorded and a deeper history
request is issued right after the forced fixtures request.  Moreover the
counter is never incremented anywhere: a normal backfill iteration
(`c4n`, counter 0) re-issues a deeper fetch with the counter still 0, so the
tripwire can never fire in a run that starts from the initial state and the
number of backfill iterations is in fact unbounded. -/
theorem C4_code_bug :
    c4s.history_count = 6 ∧ c4s.max_history_count = 5 ∧
    cout_actions (history_callback c4s 0 (some c4body))
      = [Action.sendEvents 1, Action.sendHistory (some 777) (-10)] ∧
    (cout_state (history_callback c4s 0 (some c4body))).auto_skip = true ∧
    (cout_state (history_callback c4s 0 (some c4body))).blocks
      = [(some 777, some 2)] ∧
    cout_actions (history_callback c4n 0 (some c4body))
      = [Action.sendHistory (some 777) (-10)] ∧
    (cout_state (history_callback c4n 0 (some c4body))).history_count = 0 := by
  exact ⟨rfl, rfl, rfl, rfl, rfl, rfl, rfl⟩

theorem isEmpty_eq_false_of_ne {α : Type} {l : List α} (h : l ≠ []) :
    l.isEmpty = false := by
  cases l with
  | nil => exact absurd rfl h
  | cons a t => rfl

theorem isEmpty_eq_true_of_eq {α : Type} {l : List α} (h : l = []) :
    l.isEmpty = true := by
  subst h; rfl

theorem rod_refl (s : EngineState) : result_only_diff s s := by
  simp [result_only_diff]

theorem rod_trans {s1 s2 s3 : EngineState} (h1 : result_only_diff s1 s2)
    (h2 : result_only_diff s2 s3) : result_only_diff s1 s3 := by
  unfold result_only_diff at *
  obtain ⟨a1, a2, a3, a4, a5, a6, a7, a8, a9, a10, a11, a12, a13, a14, a15,
    a16, a17, a18, a19, a20, a21, a22, a23, a24, a25, a26, a27, a28⟩ := h1
  obtain ⟨b1, b2, b3, b4, b5, b6, b7, b8, b9, b10, b11, b12, b13, b14, b15,
    b16, b17, b18, b19, b20, b21, b22, b23, b24, b25, b26, b27, b28⟩ := h2
  exact ⟨b1.trans a1, b2.trans a2, b3.trans a3, b4.trans a4, b5.trans a5,
    b6.trans a6, b7.trans a7, b8.trans a8, b9.trans a9, b10.trans a10,
    b11.trans a11, b12.trans a12, b13.trans a13, b14.trans a14,
    b15.trans a15, b16.trans a16, b17.trans a17, b18.trans a18,
    b19.trans a19, b20.trans a20, b21.trans a21, b22.trans a22,
    b23.trans a23, b24.trans a24, b25.trans a25, b26.trans a26,
    b27.trans a27, b28.trans a28⟩

theorem rod_next_result (s : EngineState) (e : Option Nat) (n : Int) (r : Nat) :
    result_only_diff s (next_result s e n r).1 := by
  simp [result_only_diff, next_result]

theorem get_block_by_week_congr {s s2 : EngineState} (h : s2.blocks = s.blocks)
    (w : Nat) : get_block_by_week s2 w = get_block_by_week s w := by
  simp [get_block_by_week, h]

theorem rod_e_block_id {s s2 : EngineState} (h : result_only_diff s s2) :
    s2.e_block_id = s.e_block_id := by
  obtain ⟨a1, a2, rest⟩ := h
  exact a2

theorem rod_league {s s2 : EngineState} (h : result_only_diff s s2) :
    s2.league = s.league := by
  obtain ⟨a1, a2, a3, rest⟩ := h
  exact a3

theorem rod_cached {s s2 : EngineState} (h : result_only_diff s s2) :
    s2.cached = s.cached := by
  obtain ⟨a1, a2, a3, a4, a5, a6, a7, a8, a9, rest⟩ := h
  exact a9

theorem rod_fetching_future {s s2 : EngineState} (h : result_only_diff s s2) :
    s2.fetching_future = s.fetching_future := by
  obtain ⟨a1, a2, a3, a4, a5, a6, a7, a8, a9, a10, a11, a12, a13, rest⟩ := h
  exact a13

theorem rod_auto_skip {s s2 : EngineState} (h : result_only_diff s s2) :
    s2.auto_skip = s.auto_skip := by
  obtain ⟨a1, a2, a3, a4, a5, a6, a7, a8, a9, a10, a11, a12, a13, a14, rest⟩ := h
  exact a14

theorem rod_restoring {s s2 : EngineState} (h : result_only_diff s s2) :
    s2.restoring = s.restoring := by
  obtain ⟨a1, a2, a3, a4, a5, a6, a7, a8, a9, a10, a11, a12, a13, a14, a15, rest⟩ := h
  exact a15

theorem rod_phase {s s2 : EngineState} (h : result_only_diff s s2) :
    s2.phase = s.phase := by
  obtain ⟨a1, a2, a3, a4, a5, a6, a7, a8, a9, a10, a11, a12, a13, a14, a15,
    a16, rest⟩ := h
  exact a16

theorem rod_required_weeks {s s2 : EngineState} (h : result_only_diff s s2) :
    s2.required_weeks = s.required_weeks := by
  obtain ⟨a1, a2, a3, a4, a5, a6, a7, a8, a9, a10, a11, a12, a13, a14, a15,
    a16, a17, rest⟩ := h
  exact a17

theorem rod_history_count {s s2 : EngineState} (h : result_only_diff s s2) :
    s2.history_count = s.history_count := by
  obtain ⟨a1, a2, a3, a4, a5, a6, a7, a8, a9, a10, a11, a12, a13, a14, a15,
    a16, a17, a18, rest⟩ := h
  exact a18

theorem rod_event_xs {s s2 : EngineState} (h : result_only_diff s s2) :
    s2.event_xs = s.event_xs := by
  obtain ⟨a1, a2, a3, a4, a5, a6, a7, a8, a9, a10, a11, a12, a13, a14, a15,
    a16, a17, a18, a19, a20, rest⟩ := h
  exact a20

theorem rod_history_xs {s s2 : EngineState} (h : result_only_diff s s2) :
    s2.history_xs = s.history_xs := by
  obtain ⟨a1, a2, a3, a4, a5, a6, a7, a8, a9, a10, a11, a12, a13, a14, a15,
    a16, a17, a18, a19, a20, a21, rest⟩ := h
  exact a21

theorem rod_blocks {s s2 : EngineState} (h : result_only_diff s s2) :
    s2.blocks = s.blocks := by
  obtain ⟨a1, a2, a3, a4, a5, a6, a7, a8, a9, a10, a11, a12, a13, a14, a15,
    a16, a17, a18, a19, a20, a21, a22, a23, a24, a25, rest⟩ := h
  exact a25

theorem rod_league_games {s s2 : EngineState} (h : result_only_diff s s2) :
    s2.league_games = s.league_games := by
  obtain ⟨a1, a2, a3, a4, a5, a6, a7, a8, a9, a10, a11, a12, a13, a14, a15,
    a16, a17, a18, a19, a20, a21, a22, a23, a24, a25, a26, rest⟩ := h
  exact a26

theorem rod_table {s s2 : EngineState} (h : result_only_diff s s2) :
    s2.table = s.table := by
  obtain ⟨a1, a2, a3, a4, a5, a6, a7, a8, a9, a10, a11, a12, a13, a14, a15,
    a16, a17, a18, a19, a20, a21, a22, a23, a24, a25, a26, a27, a28⟩ := h
  exact a27

theorem rod_future_fold (weeks : List Nat) (p : EngineState × List Action) :
    result_only_diff p.1 ((weeks.foldl future_week_step p).1) ∧
    (weeks.foldl future_week_step p).2 =
      p.2 ++ (weeks.map
        (fun w => [Action.sleep 2, Action.sendResult (get_block_by_week p.1 w) 1])).flatten := by
  induction weeks generalizing p with
  | nil => exact ⟨rod_refl p.1, by simp⟩
  | cons w ws ih =>
    have hstep : result_only_diff p.1 (future_week_step p w).1 := by
      simp only [future_week_step]
      exact rod_next_result p.1 (get_block_by_week p.1 w) 1 0
    have hblocks : (future_week_step p w).1.blocks = p.1.blocks := by
      simpa [result_only_diff] using hstep.2.2.2.2.2.2.2.2.2.2.2.2.2.2.2.2.2.2.2.2.2.2.2.2.1
    have h2 := ih (future_week_step p w)
    constructor
    · exact rod_trans hstep h2.1
    · simp only [List.foldl_cons, h2.2, List.map_cons, List.flatten]
      have hact : (future_week_step p w).2 =
          p.2 ++ [Action.sleep 2, Action.sendResult (get_block_by_week p.1 w) 1] := by
        simp [future_week_step, next_result]
      rw [hact]
      have hc : ∀ w2, get_block_by_week (future_week_step p w).1 w2 =
          get_block_by_week p.1 w2 := fun w2 => get_block_by_week_congr hblocks w2
      simp [hc]

theorem rod_multi_fold (weeks : List Nat) (p : EngineState × List Action) :
    result_only_diff p.1 ((weeks.foldl multi_result_step p).1) ∧
    (weeks.foldl multi_result_step p).2 =
      p.2 ++ (weeks.map
        (fun w => [Action.sendResult (get_block_by_week p.1 w) 1])).flatten := by
  induction weeks generalizing p with
  | nil => exact ⟨rod_refl p.1, by simp⟩
  | cons w ws ih =>
    have hstep : result_only_diff p.1 (multi_result_step p w).1 := by
      simp only [multi_result_step]
      exact rod_next_result p.1 (get_block_by_week p.1 w) 1 0
    have hblocks : (multi_result_step p w).1.blocks = p.1.blocks := by
      simpa [result_only_diff] using hstep.2.2.2.2.2.2.2.2.2.2.2.2.2.2.2.2.2.2.2.2.2.2.2.2.1
    have h2 := ih (multi_result_step p w)
    constructor
    · exact rod_trans hstep h2.1
    · simp only [List.foldl_cons, h2.2, List.map_cons, List.flatten]
      have hact : (multi_result_step p w).2 =
          p.2 ++ [Action.sendResult (get_block_by_week p.1 w) 1] := by
        simp [multi_result_step, next_result]
      rw [hact]
      have hc : ∀ w2, get_block_by_week (multi_result_step p w).1 w2 =
          get_block_by_week p.1 w2 := fun w2 => get_block_by_week_congr hblocks w2
      simp [hc]

theorem dispatch_c3_fields (s : EngineState) :
    (dispatch_events s).1.league_games = s.league_games ∧
    (dispatch_events s).1.blocks = s.blocks ∧
    (dispatch_events s).1.required_weeks = s.required_weeks ∧
    (dispatch_events s).1.league = s.league ∧
    (dispatch_events s).1.auto_skip = s.auto_skip ∧
    (dispatch_events s).1.table = s.table ∧
    (dispatch_events s).1.restoring = s.restoring ∧
    (s.cached = false → (dispatch_events s).1.cached = false) := by
  unfold dispatch_events
  dsimp only
  split
  · simp [next_block_future, next_history]
  · split
    · unfold get_future_weeks
      have hrod := (rod_future_fold (s.table.check_weeks s.required_weeks)
        ({ s with fetching_future := true }, ([] : List Action))).1
      refine ⟨?_, ?_, ?_, ?_, ?_, ?_, ?_, fun hc => ?_⟩
      · rw [rod_league_games hrod]
      · rw [rod_blocks hrod]
      · rw [rod_required_weeks hrod]
      · rw [rod_league hrod]
      · rw [rod_auto_skip hrod]
      · rw [rod_table hrod]
      · rw [rod_restoring hrod]
      · rw [rod_cached hrod]
        exact hc
    · split
      · simp [process_tickets]
      · simp [next_block_result, next_result]

theorem events_reset_of_change (s : EngineState) (l m : Option Nat)
    (hch : ¬ (l = s.league ∧ truthy s.league = true)) :
    events_reset s l m = { s with
      auto_skip := if m = some 1 then false else s.auto_skip,
      league_games := [], blocks := [], cached := false,
      required_weeks := [], league := l } := by
  unfold events_reset
  rw [if_neg hch]
  by_cases hm : m = some 1
  · simp [hm]
  · simp [hm]

theorem events_reset_of_same (s : EngineState) (l m : Option Nat)
    (hsame : l = s.league ∧ truthy s.league = true) :
    events_reset s l m = s := by
  unfold events_reset
  rw [if_pos hsame]

theorem events_table_branch_fields (s : EngineState) (stats : List (Nat × Nat)) :
    (pout_state (events_table_branch s stats)).league_games = s.league_games ∧
    (pout_state (events_table_branch s stats)).blocks = s.blocks ∧
    (pout_state (events_table_branch s stats)).required_weeks = s.required_weeks ∧
    (pout_state (events_table_branch s stats)).league = s.league ∧
    (pout_state (events_table_branch s stats)).auto_skip = s.auto_skip ∧
    (pout_state (events_table_branch s stats)).restoring = s.restoring ∧
    (s.cached = false → (pout_state (events_table_branch s stats)).cached = false) := by
  unfold events_table_branch
  dsimp only
  split
  · -- dispatch branch
    have hd := dispatch_c3_fields { s with
      table := (s.table.on_event s.league s.week).feed_stats s.league s.week stats }
    simp only [pout_state]
    refine ⟨?_, ?_, ?_, ?_, ?_, ?_, fun hc => ?_⟩
    · rw [hd.1]
    · rw [hd.2.1]
    · rw [hd.2.2.1]
    · rw [hd.2.2.2.1]
    · rw [hd.2.2.2.2.1]
    · rw [hd.2.2.2.2.2.2.1]
    · exact hd.2.2.2.2.2.2.2 hc
  · split
    · -- multi-round catch-up fan-out
      have hrod := (rod_multi_fold
        (({ s with table := (s.table.on_event s.league s.week).feed_stats s.league s.week stats } : EngineState).table.get_missing_weeks)
        ({ s with
            table := (s.table.on_event s.league s.week).feed_stats s.league s.week stats,
            caching_multiple := true }, ([] : List Action))).1
      simp only [pout_state]
      refine ⟨?_, ?_, ?_, ?_, ?_, ?_, fun hc => ?_⟩
      · rw [rod_league_games hrod]
      · rw [rod_blocks hrod]
      · rw [rod_required_weeks hrod]
      · rw [rod_league hrod]
      · rw [rod_auto_skip hrod]
      · rw [rod_restoring hrod]
      · rw [rod_cached hrod]
        exact hc
    · simp [pout_state, next_history]

theorem events_table_branch_ok (s : EngineState) (stats : List (Nat × Nat))
    (s2 : EngineState) (as : List Action)
    (h : events_table_branch s stats = POut.ok s2 as) :
    s2.league_games = s.league_games ∧
    s2.blocks = s.blocks ∧
    s2.required_weeks = s.required_weeks ∧
    s2.league = s.league ∧
    s2.auto_skip = s.auto_skip ∧
    s2.restoring = s.restoring ∧
    (s.cached = false → s2.cached = false) := by
  have hf := events_table_branch_fields s stats
  rw [h] at hf
  simpa [pout_state] using hf

theorem events_process_core_ok (s : EngineState) (env : Env) (d : EventsData)
    (s2 : EngineState) (as : List Action)
    (h : events_process_core s env d = POut.ok s2 as) :
    s2.league_games = s.league_games ∧
    s2.blocks = s.blocks ∧
    s2.required_weeks = s.required_weeks ∧
    s2.league = s.league ∧
    (s.cached = false → s2.cached = false) ∧
    (s.auto_skip = true →
      s2.phase = RESULTS ∧ s2.auto_skip = true ∧ s2.table = s.table ∧
      s2.cached = s.cached ∧
      as = [Action.awaitEventTime, Action.sendResult s2.e_block_id 1] ∧
      s2.e_block_id = s.e_block_id ∧ s2.restoring = s.restoring ∧
      s2.history_xs = s.history_xs ∧
      s2.result_xs = ainsert s.result_xs s.next_xs ⟨s.e_block_id, 1, 0⟩) ∧
    (s.auto_skip = false → s2.auto_skip = s.auto_skip ∧ s2.restoring = s.restoring) := by
  unfold events_process_core at h
  dsimp only at h
  split at h
  · rename_i ha
    simp only [next_block_result, next_result, POut.ok.injEq] at h
    obtain ⟨h1, h2⟩ := h
    subst h1
    subst h2
    simp at ha
    simp [ha]
  · rename_i ha
    simp at ha
    have hf := events_table_branch_ok _ _ _ _ h
    refine ⟨?_, ?_, ?_, ?_, fun hc => ?_, fun hskip => ?_, fun hskip => ?_⟩
    · rw [hf.1]; simp
    · rw [hf.2.1]; simp
    · rw [hf.2.2.1]; simp
    · rw [hf.2.2.2.1]; simp
    · exact hf.2.2.2.2.2.2 (by simp [hc])
    · exact absurd hskip (by simp [ha])
    · constructor
      · rw [hf.2.2.2.2.1]; simp [ha, hskip]
      · rw [hf.2.2.2.2.2.1]; simp

theorem events_process_clears (s : EngineState) (env : Env) (d : EventsData)
    (s2 : EngineState) (as : List Action)
    (hch : ¬ (events_league d = s.league ∧ truthy s.league = true))
    (hrun : resource_events_process s env d = POut.ok s2 as) :
    s2.league_games = [] ∧ s2.blocks = [] ∧ s2.cached = false ∧
    s2.required_weeks = [] ∧ s2.league = events_league d := by
  unfold resource_events_process at hrun
  dsimp only at hrun
  split at hrun
  · rw [events_reset_of_change _ _ _ (by simpa using hch)] at hrun
    have hc := events_process_core_ok _ _ _ _ _ hrun
    refine ⟨?_, ?_, ?_, ?_, ?_⟩
    · rw [hc.1]
    · rw [hc.2.1]
    · exact hc.2.2.2.2.1 rfl
    · rw [hc.2.2.1]
    · rw [hc.2.2.2.1]
  · exact absurd hrun (by simp)

theorem events_process_noclear (s : EngineState) (env : Env) (d : EventsData)
    (s2 : EngineState) (as : List Action)
    (hsame : events_league d = s.league ∧ truthy s.league = true)
    (hrun : resource_events_process s env d = POut.ok s2 as) :
    s2.blocks = s.blocks ∧ s2.league_games = s.league_games ∧
    s2.required_weeks = s.required_weeks ∧ s2.league = s.league := by
  unfold resource_events_process at hrun
  dsimp only at hrun
  split at hrun
  · rw [events_reset_of_same _ _ _ (by simpa using hsame)] at hrun
    have hc := events_process_core_ok _ _ _ _ _ hrun
    refine ⟨?_, ?_, ?_, ?_⟩
    · rw [hc.2.1]
    · rw [hc.1]
    · rw [hc.2.2.1]
    · rw [hc.2.2.2.1]
  · exact absurd hrun (by simp)

/-- Claim C3: a fixtures response whose league id differs from the tracked
league (or when none is tracked) clears `league_games`, `blocks`, the
cached-completeness flag and the required-rounds tracking before any data
for the new league is recorded; this handler never repopulates them, so they
are still clear (and the league rebound) when it finishes. -/
theorem C3_league_change_reset (s : EngineState) (env : Env) (d : EventsData)
    (s2 : EngineState) (as : List Action)
    (hch : ¬ (events_league d = s.league ∧ truthy s.league = true))
    (hrun : resource_events_process s env d = POut.ok s2 as) :
    s2.league_games = [] ∧ s2.blocks = [] ∧ s2.cached = false ∧
    s2.required_weeks = [] ∧ s2.league = events_league d :=
  events_process_clears s env d s2 as hch hrun

/-- Witness for `C3_league_change_reset` at `stateA` and the league-8 payload
`c3d`. -/
theorem C3_league_change_reset_witness :
    (pout_state (resource_events_process stateA envA c3d)).league_games = [] ∧
    (pout_state (resource_events_process stateA envA c3d)).blocks = [] ∧
    (pout_state (resource_events_process stateA envA c3d)).cached = false ∧
    (pout_state (resource_events_process stateA envA c3d)).required_weeks = [] ∧
    (pout_state (resource_events_process stateA envA c3d)).league = events_league c3d :=
  C3_league_change_reset stateA envA c3d
    (pout_state (resource_events_process stateA envA c3d))
    (pout_actions (resource_events_process stateA envA c3d))
    (by decide) rfl

/-- Claim C6, as stated, is false at `c6s`: rounds 2..34 have no observed
block, so the engine enters event-level caching mode, but the historical
batch it fetches is anchored at the current fixtures block 100, not at the
maximum known block 200. -/
theorem C6_counterexample :
    get_missing_blocks c6s ≠ [] ∧
    (c6s.blocks.filterMap (fun p => p.1)).foldl Nat.max 0 = 200 ∧
    (dispatch_events c6s).2 = [Action.sendHistory (some 100) 10] ∧
    Action.sendHistory (some 200) 10 ∉ (dispatch_events c6s).2 ∧
    (dispatch_events c6s).1.caching_future = true := by
  refine ⟨?_, rfl, rfl, ?_, rfl⟩
  · decide
  · decide

/-- Claim C6 (amended): in dispatch evaluation, if some round in
`[1, maxRounds]` has no observed block, the engine enters event-level caching
mode and fetches a further historical batch anchored at the current fixtures
block id (not the maximum known block id); otherwise, if future-result
prefetching is enabled and some required round is not yet satisfied, it
latches prefetch mode and issues the sequential delayed results requests
instead of dispatching; only when no block gaps and no pending required
rounds remain does it poll every active strategy, setting the phase to
`AwaitingTickets` when tickets were produced and to `AwaitingResults`
otherwise. -/
theorem C6_dispatch_policy
    (s1 : EngineState) (h1 : get_missing_blocks s1 ≠ [])
    (s2 : EngineState) (h2 : get_missing_blocks s2 = [])
    (h3 : s2.future_results = true)
    (h4 : s2.table.check_weeks s2.required_weeks ≠ [])
    (s3 : EngineState) (h5 : get_missing_blocks s3 = [])
    (h6 : s3.table.check_weeks s3.required_weeks = []) :
    ((dispatch_events s1).2 = [Action.sendHistory s1.e_block_id 10] ∧
     (dispatch_events s1).1.caching_future = true ∧
     (dispatch_events s1).1.cached = false) ∧
    ((dispatch_events s2).1.fetching_future = true ∧
     (dispatch_events s2).1.phase = s2.phase ∧
     (dispatch_events s2).2 =
       ((s2.table.check_weeks s2.required_weeks).map
         (fun w => [Action.sleep 2, Action.sendResult (get_block_by_week s2 w) 1])).flatten) ∧
    ((s3.players.foldl (fun acc p => if p.active then acc ++ p.tickets else acc)
        ([] : List Nat)).isEmpty = true →
      (dispatch_events s3).1.phase = RESULTS ∧
      (dispatch_events s3).2 = [Action.awaitEventTime, Action.sendResult s3.e_block_id 1]) ∧
    ((s3.players.foldl (fun acc p => if p.active then acc ++ p.tickets else acc)
        ([] : List Nat)).isEmpty = false →
      (dispatch_events s3).1.phase = TICKETS ∧
      (dispatch_events s3).2 =
        [Action.processTickets
          (s3.players.foldl (fun acc p => if p.active then acc ++ p.tickets else acc)
            ([] : List Nat))]) := by
  refine ⟨?_, ?_, ?_, ?_⟩
  · have he : (get_missing_blocks s1).isEmpty = false := isEmpty_eq_false_of_ne h1
    simp [dispatch_events, he, next_block_future, next_history]
  · have he : (get_missing_blocks s2).isEmpty = true := isEmpty_eq_true_of_eq h2
    have hnr : (s2.table.check_weeks s2.required_weeks).isEmpty = false :=
      isEmpty_eq_false_of_ne h4
    have hde : dispatch_events s2 =
        (s2.table.check_weeks s2.required_weeks).foldl future_week_step
          ({ s2 with fetching_future := true }, ([] : List Action)) := by
      simp [dispatch_events, he, hnr, h3, get_future_weeks]
    have hfold := rod_future_fold (s2.table.check_weeks s2.required_weeks)
      ({ s2 with fetching_future := true }, ([] : List Action))
    have hrod := hfold.1
    have hact := hfold.2
    refine ⟨?_, ?_, ?_⟩
    · rw [hde, rod_fetching_future hrod]
    · rw [hde, rod_phase hrod]
    · rw [hde, hact]
      simp [get_block_by_week]
  · intro hp
    have he : (get_missing_blocks s3).isEmpty = true := isEmpty_eq_true_of_eq h5
    have hnr : (s3.table.check_weeks s3.required_weeks).isEmpty = true :=
      isEmpty_eq_true_of_eq h6
    simp [dispatch_events, he, hnr, hp, next_block_result, next_result]
  · intro hp
    have he : (get_missing_blocks s3).isEmpty = true := isEmpty_eq_true_of_eq h5
    have hnr : (s3.table.check_weeks s3.required_weeks).isEmpty = true :=
      isEmpty_eq_true_of_eq h6
    simp [dispatch_events, he, hnr, hp, process_tickets]

/-- Claim C5, as stated, is false at `c5s`: the returned block id differs
from the last known block id, so the reset path is taken (the ticket
collaborator is reset first), yet `blocks` is NOT empty before the response
is reprocessed — the reprocessing never clears it because the league id is
unchanged, and since reprocessing never inserts blocks either, the final
state still carries the old mapping. -/
theorem C5_counterexample :
    c5s.restoring = true ∧
    c5d.eBlockId ≠ c5s.e_block_id ∧
    (cout_actions (events_callback c5s envA 5 (some c5d))).head? =
      some Action.resetCompetitionTickets ∧
    c5s.blocks ≠ [] ∧
    (cout_state (events_callback c5s envA 5 (some c5d))).blocks = c5s.blocks := by
  refine ⟨rfl, by decide, rfl, by decide, rfl⟩

/-- Claim C5 (amended): on a resume response with a matching block id the
engine resumes at the results-await point — when not in demo mode it first
asks the account collaborator whether an in-flight ticket exists and
requests results only if not.  On a differing block id it resets the locally
registered tickets and reprocesses the payload as a fresh fixtures event;
`league_games`, `blocks` and `required_weeks` are cleared by that
reprocessing exactly when the payload's league id also differs from the
tracked league, and are preserved when the league is unchanged. -/
theorem C5_resume_policy
    (sa : EngineState) (ea : Env) (da : EventsData)
    (h1 : da.eBlockId ≠ sa.e_block_id)
    (sb : EngineState) (eb1 eb2 : Env) (db : EventsData)
    (h2 : db.eBlockId = sb.e_block_id)
    (hb1 : eb1.demo = false) (hb2 : eb1.resume_ok = true)
    (hb3 : eb2.demo = false) (hb4 : eb2.resume_ok = false)
    (sc : EngineState) (ec : Env) (dc : EventsData) (s2 : EngineState) (as2 : List Action)
    (h3 : dc.eBlockId ≠ sc.e_block_id)
    (h4 : ¬ (events_league dc = sc.league ∧ truthy sc.league = true))
    (h5 : resource_events_process_resume sc ec dc = POut.ok s2 as2)
    (sd : EngineState) (ed : Env) (dd : EventsData) (s3 : EngineState) (as3 : List Action)
    (h6 : dd.eBlockId ≠ sd.e_block_id)
    (h7 : events_league dd = sd.league ∧ truthy sd.league = true)
    (h8 : resource_events_process_resume sd ed dd = POut.ok s3 as3) :
    (resource_events_process_resume sa ea da =
      (match resource_events_process
          { sa with restoring := false, active_tickets := [] } ea da with
       | POut.ok s4 as4 => POut.ok s4 (Action.resetCompetitionTickets :: as4)
       | POut.invalid s4 as4 => POut.invalid s4 (Action.resetCompetitionTickets :: as4))) ∧
    (resource_events_process_resume sb eb1 db =
      POut.ok { sb with restoring := false } [Action.resumingTickets]) ∧
    (resource_events_process_resume sb eb2 db =
      POut.ok { sb with
          restoring := false,
          next_xs := sb.next_xs + 1,
          result_xs := ainsert sb.result_xs sb.next_xs ⟨sb.e_block_id, 1, 0⟩ }
        [Action.awaitEventTime, Action.sendResult sb.e_block_id 1]) ∧
    (s2.league_games = [] ∧ s2.blocks = [] ∧ s2.cached = false ∧
     s2.required_weeks = [] ∧
     as2.head? = some Action.resetCompetitionTickets) ∧
    (s3.blocks = sd.blocks ∧ s3.league_games = sd.league_games ∧
     s3.required_weeks = sd.required_weeks) := by
  refine ⟨?_, ?_, ?_, ?_, ?_⟩
  · unfold resource_events_process_resume
    dsimp only
    rw [if_neg (by simpa using h1)]
  · unfold resource_events_process_resume
    dsimp only
    rw [if_pos (by simpa using h2), if_pos hb1, if_pos hb2]
  · unfold resource_events_process_resume
    dsimp only
    rw [if_pos (by simpa using h2), if_pos hb3]
    simp [hb4, next_block_result, next_result]
  · unfold resource_events_process_resume at h5
    dsimp only at h5
    rw [if_neg (by simpa using h3)] at h5
    split at h5
    · rename_i s4 as4 heq
      simp only [POut.ok.injEq] at h5
      obtain ⟨hs, ha⟩ := h5
      subst hs
      have hc := events_process_clears _ ec dc _ _ (by simpa using h4) heq
      exact ⟨hc.1, hc.2.1, hc.2.2.1, hc.2.2.2.1, by rw [← ha]; rfl⟩
    · exact absurd h5 (by simp)
  · unfold resource_events_process_resume at h8
    dsimp only at h8
    rw [if_neg (by simpa using h6)] at h8
    split at h8
    · rename_i s4 as4 heq
      simp only [POut.ok.injEq] at h8
      obtain ⟨hs, ha⟩ := h8
      subst hs
      have hc := events_process_noclear _ ed dd _ _ (by simpa using h7) heq
      exact ⟨by rw [hc.1], by rw [hc.2.1], by rw [hc.2.2.1]⟩
    · exact absurd h8 (by simp)

/-- Witness for `C5_resume_policy` at the concrete states and payloads. -/
theorem C5_resume_policy_witness :
    (resource_events_process_resume c5s envA c5d =
      (match resource_events_process
          { c5s with restoring := false, active_tickets := [] } envA c5d with
       | POut.ok s4 as4 => POut.ok s4 (Action.resetCompetitionTickets :: as4)
       | POut.invalid s4 as4 => POut.invalid s4 (Action.resetCompetitionTickets :: as4))) ∧
    (resource_events_process_resume c5m envB c5dm =
      POut.ok { c5m with restoring := false } [Action.resumingTickets]) ∧
    (resource_events_process_resume c5m envC c5dm =
      POut.ok { c5m with
          restoring := false,
          next_xs := c5m.next_xs + 1,
          result_xs := ainsert c5m.result_xs c5m.next_xs ⟨c5m.e_block_id, 1, 0⟩ }
        [Action.awaitEventTime, Action.sendResult c5m.e_block_id 1]) ∧
    ((pout_state (resource_events_process_resume c5s envA c5dc)).league_games = [] ∧
     (pout_state (resource_events_process_resume c5s envA c5dc)).blocks = [] ∧
     (pout_state (resource_events_process_resume c5s envA c5dc)).cached = false ∧
     (pout_state (resource_events_process_resume c5s envA c5dc)).required_weeks = [] ∧
     (pout_actions (resource_events_process_resume c5s envA c5dc)).head? =
       some Action.resetCompetitionTickets) ∧
    ((pout_state (resource_events_process_resume c5s envA c5d)).blocks = c5s.blocks ∧
     (pout_state (resource_events_process_resume c5s envA c5d)).league_games = c5s.league_games ∧
     (pout_state (resource_events_process_resume c5s envA c5d)).required_weeks = c5s.required_weeks) :=
  C5_resume_policy c5s envA c5d (by decide)
    c5m envB envC c5dm (by decide) rfl rfl rfl rfl
    c5s envA c5dc
    (pout_state (resource_events_process_resume c5s envA c5dc))
    (pout_actions (resource_events_process_resume c5s envA c5dc))
    (by decide) (by decide) rfl
    c5s envA c5d
    (pout_state (resource_events_process_resume c5s envA c5d))
    (pout_actions (resource_events_process_resume c5s envA c5d))
    (by decide) (by decide) rfl

theorem history_entry_step_same (s : EngineState) (wr : WeekResult) :
    (history_entry_step s wr).1.auto_skip = s.auto_skip ∧
    (history_entry_step s wr).1.event_xs = s.event_xs ∧
    (history_entry_step s wr).1.history_xs = s.history_xs ∧
    (history_entry_step s wr).1.result_xs = s.result_xs ∧
    (history_entry_step s wr).1.next_xs = s.next_xs ∧
    (history_entry_step s wr).1.caching = s.caching ∧
    (history_entry_step s wr).1.caching_future = s.caching_future ∧
    (history_entry_step s wr).1.history_count = s.history_count := by
  unfold history_entry_step
  dsimp only
  split
  · split
    · simp
    · split
      · simp
      · simp
  · simp

theorem history_fold_same (data : List WeekResult) : ∀ s : EngineState,
    (history_fold s data).1.auto_skip = s.auto_skip ∧
    (history_fold s data).1.event_xs = s.event_xs ∧
    (history_fold s data).1.history_xs = s.history_xs ∧
    (history_fold s data).1.result_xs = s.result_xs ∧
    (history_fold s data).1.next_xs = s.next_xs ∧
    (history_fold s data).1.caching = s.caching ∧
    (history_fold s data).1.caching_future = s.caching_future ∧
    (history_fold s data).1.history_count = s.history_count := by
  induction data with
  | nil => intro s; simp [history_fold]
  | cons wr rest ih =>
    intro s
    have hstep := history_entry_step_same s wr
    unfold history_fold
    dsimp only
    split
    · exact hstep
    · have hr := ih (history_entry_step s wr).1
      refine ⟨?_, ?_, ?_, ?_, ?_, ?_, ?_, ?_⟩
      · rw [hr.1, hstep.1]
      · rw [hr.2.1, hstep.2.1]
      · rw [hr.2.2.1, hstep.2.2.1]
      · rw [hr.2.2.2.1, hstep.2.2.2.1]
      · rw [hr.2.2.2.2.1, hstep.2.2.2.2.1]
      · rw [hr.2.2.2.2.2.1, hstep.2.2.2.2.2.1]
      · rw [hr.2.2.2.2.2.2.1, hstep.2.2.2.2.2.2.1]
      · rw [hr.2.2.2.2.2.2.2, hstep.2.2.2.2.2.2.2]

theorem results_process_auto_skip (s : EngineState) (d : ResultsData) :
    (cout_state (resource_result_process s d)).auto_skip = s.auto_skip := by
  unfold resource_result_process
  dsimp only
  split
  · simp [cout_state]
  · split
    · simp [cout_state, next_block_event, next_event]
    · split
      · split
        · simp only [cout_state]
          rw [(dispatch_c3_fields _).2.2.2.2.1]
        · simp [cout_state]
      · split
        · split
          · simp only [cout_state]
            rw [(dispatch_c3_fields _).2.2.2.2.1]
          · simp [cout_state]
        · split
          · simp [cout_state, next_block_event, next_event]
          · simp [cout_state]

theorem history_process_auto_skip (s : EngineState) (e : Option Nat) (n : Int)
    (data : List WeekResult) :
    (cout_state (resource_history_process s e n data)).auto_skip = s.auto_skip := by
  have hfold := history_fold_same data s
  unfold resource_history_process
  dsimp only
  split
  · simp only [cout_state]
    exact hfold.1
  · split
    · split
      · simp only [cout_state, next_history]
        exact hfold.1
      · simp only [cout_state]
        rw [(dispatch_c3_fields _).2.2.2.2.1]
        exact hfold.1
    · split
      · split
        · simp only [cout_state, next_block_future, next_history]
          exact hfold.1
        · simp only [cout_state]
          rw [(dispatch_c3_fields _).2.2.2.2.1]
          exact hfold.1
      · simp only [cout_state]
        exact hfold.1

theorem events_process_auto_skip_iff (s : EngineState) (env : Env) (d : EventsData)
    (s2 : EngineState) (as : List Action)
    (ha : s.auto_skip = true)
    (hrun : resource_events_process s env d = POut.ok s2 as) :
    s2.auto_skip = false ↔
      (¬ (events_league d = s.league ∧ truthy s.league = true) ∧
        events_match_day d = some 1) := by
  unfold resource_events_process at hrun
  dsimp only at hrun
  split at hrun
  · by_cases hch : events_league d = s.league ∧ truthy s.league = true
    · rw [events_reset_of_same _ _ _ (by simpa using hch)] at hrun
      have hc := events_process_core_ok _ _ _ _ _ hrun
      have hskip := (hc.2.2.2.2.2.1 (by simp [ha])).2.1
      constructor
      · intro hf
        rw [hskip] at hf
        exact absurd hf (by simp)
      · intro hr
        exact absurd hch hr.1
    · rw [events_reset_of_change _ _ _ (by simpa using hch)] at hrun
      by_cases hmd : events_match_day d = some 1
      · rw [if_pos hmd] at hrun
        have hc := events_process_core_ok _ _ _ _ _ hrun
        have hskip := (hc.2.2.2.2.2.2 (by simp)).1
        constructor
        · intro hf
          exact ⟨hch, hmd⟩
        · intro hr
          simp [hskip]
      · rw [if_neg hmd] at hrun
        have hc := events_process_core_ok _ _ _ _ _ hrun
        have hskip := (hc.2.2.2.2.2.1 (by simp [ha])).2.1
        constructor
        · intro hf
          rw [hskip] at hf
          exact absurd hf (by simp)
        · intro hr
          exact absurd hr.2 hmd
  · exact absurd hrun (by simp)

theorem events_process_latched (s : EngineState) (env : Env) (d : EventsData)
    (s2 : EngineState) (as : List Action)
    (ha : s.auto_skip = true)
    (hnc : (events_league d = s.league ∧ truthy s.league = true) ∨
      events_match_day d ≠ some 1)
    (hrun : resource_events_process s env d = POut.ok s2 as) :
    s2.phase = RESULTS ∧ s2.auto_skip = true ∧ s2.table = s.table ∧
    as = [Action.awaitEventTime, Action.sendResult s2.e_block_id 1] := by
  unfold resource_events_process at hrun
  dsimp only at hrun
  split at hrun
  · by_cases hch : events_league d = s.league ∧ truthy s.league = true
    · rw [events_reset_of_same _ _ _ (by simpa using hch)] at hrun
      have hc := events_process_core_ok _ _ _ _ _ hrun
      have hl := hc.2.2.2.2.2.1 (by simp [ha])
      exact ⟨hl.1, hl.2.1, by rw [hl.2.2.1], hl.2.2.2.2.1⟩
    · rcases hnc with hc2 | hmd
      · exact absurd hc2 hch
      · rw [events_reset_of_change _ _ _ (by simpa using hch), if_neg hmd] at hrun
        have hc := events_process_core_ok _ _ _ _ _ hrun
        have hl := hc.2.2.2.2.2.1 (by simp [ha])
        exact ⟨hl.1, hl.2.1, by rw [hl.2.2.1], hl.2.2.2.2.1⟩
  · exact absurd hrun (by simp)

theorem results_process_latched (s : EngineState) (d : ResultsData)
    (s2 : EngineState) (as : List Action)
    (ha : s.auto_skip = true)
    (hrun : resource_result_process s d = COut.ok s2 as) :
    s2.phase = EVENTS ∧ as = [Action.sendEvents 1] ∧ s2.table = s.table ∧
    s2.auto_skip = true ∧ s2.result_xs = s.result_xs ∧
    s2.history_xs = s.history_xs ∧ s2.restoring = s.restoring := by
  unfold resource_result_process at hrun
  dsimp only at hrun
  split at hrun
  · exact absurd hrun (by simp)
  · rw [if_pos ha] at hrun
    simp only [next_block_event, next_event, COut.ok.injEq] at hrun
    obtain ⟨h1, h2⟩ := hrun
    subst h1
    subst h2
    simp [ha]

theorem dispatch_no_result (b : Nat) (s : EngineState)
    (hreq : s.required_weeks = []) (hbe : s.e_block_id ≠ some b) :
    no_result_for b (dispatch_events s).2 := by
  unfold dispatch_events
  dsimp only
  split
  · intro e n hmem
    simp [next_block_future, next_history] at hmem
  · split
    · rename_i hcond
      rw [hreq] at hcond
      simp [LeagueTable.check_weeks] at hcond
    · split
      · intro e n hmem
        simp [process_tickets] at hmem
      · intro e n hmem
        simp [next_block_result, next_result] at hmem
        rw [hmem.1]
        exact hbe

theorem table_branch_no_result (b : Nat) (s : EngineState) (stats : List (Nat × Nat))
    (hreq : s.required_weeks = []) (hcached : s.cached = false)
    (hbe : s.e_block_id ≠ some b) :
    no_result_for b (pout_actions (events_table_branch s stats)) := by
  unfold events_table_branch
  dsimp only
  split
  · simp only [pout_actions]
    exact dispatch_no_result b _ (by simpa using hreq) (by simpa using hbe)
  · split
    · rename_i hc
      simp [hcached] at hc
    · intro e n hmem
      simp [pout_actions, next_history] at hmem

theorem table_branch_no_result_ok (b : Nat) (s : EngineState)
    (stats : List (Nat × Nat)) (s2 : EngineState) (as : List Action)
    (h : events_table_branch s stats = POut.ok s2 as)
    (hreq : s.required_weeks = []) (hcached : s.cached = false)
    (hbe : s.e_block_id ≠ some b) :
    no_result_for b as := by
  have hn := table_branch_no_result b s stats hreq hcached hbe
  rw [h] at hn
  simpa [pout_actions] using hn

theorem c7_events_process (b : Nat) (s : EngineState) (env : Env) (d : EventsData)
    (ha : s.auto_skip = true)
    (hres : ∀ p ∈ s.result_xs, p.2.e_block ≠ some b)
    (hhist : s.history_xs = [])
    (hrest : s.restoring = false)
    (hb : d.eBlockId ≠ some b) :
    (∀ s2 as, resource_events_process s env d = POut.ok s2 as →
      no_result_for b as ∧
      (s2.auto_skip = true →
        (s2.restoring = false ∧ s2.history_xs = [] ∧
          ∀ p ∈ s2.result_xs, p.2.e_block ≠ some b))) ∧
    (∀ s2 as, resource_events_process s env d = POut.invalid s2 as →
      s2 = s ∧ as = []) := by
  constructor
  · intro s2 as hrun
    unfold resource_events_process at hrun
    dsimp only at hrun
    split at hrun
    · by_cases hch : events_league d = s.league ∧ truthy s.league = true
      · rw [events_reset_of_same _ _ _ (by simpa using hch)] at hrun
        have hc := events_process_core_ok _ _ _ _ _ hrun
        have hl := hc.2.2.2.2.2.1 (by simp [ha])
        have hblk : s2.e_block_id = d.eBlockId := by
          rw [hl.2.2.2.2.2.1]
        constructor
        · rw [hl.2.2.2.2.1]
          intro e n hmem
          simp at hmem
          rw [hmem.1, hblk]
          exact hb
        · intro _
          refine ⟨?_, ?_, ?_⟩
          · rw [hl.2.2.2.2.2.2.1]
            simpa using hrest
          · rw [hl.2.2.2.2.2.2.2.1]
            simpa using hhist
          · intro p hp
            rw [hl.2.2.2.2.2.2.2.2] at hp
            rcases mem_ainsert hp with h2 | h2
            · rw [h2]
              simpa using hb
            · exact hres p (by simpa using h2)
      · by_cases hmd : events_match_day d = some 1
        · rw [events_reset_of_change _ _ _ (by simpa using hch), if_pos hmd] at hrun
          unfold events_process_core at hrun
          dsimp only at hrun
          rw [if_neg (by simp)] at hrun
          constructor
          · exact table_branch_no_result_ok b _ _ _ _ hrun
              (by simp) (by simp) (by simpa using hb)
          · intro hskip
            have hf := events_table_branch_ok _ _ _ _ hrun
            rw [hf.2.2.2.2.1] at hskip
            simp at hskip
        · rw [events_reset_of_change _ _ _ (by simpa using hch), if_neg hmd] at hrun
          have hc := events_process_core_ok _ _ _ _ _ hrun
          have hl := hc.2.2.2.2.2.1 (by simp [ha])
          have hblk : s2.e_block_id = d.eBlockId := by
            rw [hl.2.2.2.2.2.1]
          constructor
          · rw [hl.2.2.2.2.1]
            intro e n hmem
            simp at hmem
            rw [hmem.1, hblk]
            exact hb
          · intro _
            refine ⟨?_, ?_, ?_⟩
            · rw [hl.2.2.2.2.2.2.1]
              simpa using hrest
            · rw [hl.2.2.2.2.2.2.2.1]
              simpa using hhist
            · intro p hp
              rw [hl.2.2.2.2.2.2.2.2] at hp
              rcases mem_ainsert hp with h2 | h2
              · rw [h2]
                simpa using hb
              · exact hres p (by simpa using h2)
    · exact absurd hrun (by simp)
  · intro s2 as hrun
    unfold resource_events_process at hrun
    dsimp only at hrun
    split at hrun
    · exfalso
      unfold events_process_core at hrun
      dsimp only at hrun
      split at hrun
      · exact absurd hrun (by simp)
      · unfold events_table_branch at hrun
        dsimp only at hrun
        split at hrun
        · exact absurd hrun (by simp)
        · split at hrun
          · exact absurd hrun (by simp)
          · exact absurd hrun (by simp)
    · simp only [POut.invalid.injEq] at hrun
      exact ⟨hrun.1.symm, hrun.2.symm⟩

theorem results_process_no_unknown (s : EngineState) (d : ResultsData)
    (s2 : EngineState) (as : List Action) :
    resource_result_process s d ≠ COut.unknownRequest s2 as := by
  intro h
  unfold resource_result_process at h
  dsimp only at h
  split at h
  · simp at h
  · split at h
    · simp at h
    · split at h
      · split at h
        · simp at h
        · simp at h
      · split at h
        · split at h
          · simp at h
          · simp at h
        · split at h
          · simp at h
          · simp at h

theorem results_process_crashed (s : EngineState) (d : ResultsData)
    (s2 : EngineState) (as : List Action)
    (h : resource_result_process s d = COut.crashed s2 as) : s2 = s ∧ as = [] := by
  unfold resource_result_process at h
  dsimp only at h
  split at h
  · simp only [COut.crashed.injEq] at h
    exact ⟨h.1.symm, h.2.symm⟩
  · split at h
    · simp at h
    · split at h
      · split at h
        · simp at h
        · simp at h
      · split at h
        · split at h
          · simp at h
          · simp at h
        · split at h
          · simp at h
          · simp at h

theorem c7_step_results (b : Nat) (s : EngineState) (xs : Nat)
    (resp : Option ResultsData)
    (ha : s.auto_skip = true) (hrest : s.restoring = false)
    (hhist : s.history_xs = [])
    (hres : ∀ p ∈ s.result_xs, p.2.e_block ≠ some b) :
    no_result_for b (cout_actions (results_callback s xs resp)) ∧
    ((cout_state (results_callback s xs resp)).auto_skip = true →
      C7Inv b (cout_state (results_callback s xs resp))) := by
  rcases hx : alookup s.result_xs xs with - | req
  · simp only [results_callback, hx]
    constructor
    · intro e n hmem
      simp [cout_actions] at hmem
    · intro _
      exact ⟨ha, hrest, hhist, hres⟩
  · simp only [results_callback, hx]
    cases resp with
    | some dd =>
      dsimp only
      rcases hcase : resource_result_process
          { s with result_xs := aerase s.result_xs xs } dd with ⟨s2, as⟩ | ⟨s2, as⟩ | ⟨s2, as⟩
      · have hl := results_process_latched _ dd s2 as (by simp [ha]) hcase
        constructor
        · intro e n hmem
          simp only [cout_actions] at hmem
          rw [hl.2.1] at hmem
          simp at hmem
        · intro _
          simp only [cout_state]
          refine ⟨hl.2.2.2.1, ?_, ?_, ?_⟩
          · rw [hl.2.2.2.2.2.2]
            simpa using hrest
          · rw [hl.2.2.2.2.2.1]
            simpa using hhist
          · intro p hp
            rw [hl.2.2.2.2.1] at hp
            simp only at hp
            exact hres p (mem_aerase (by simpa using hp))
      · exact absurd hcase (results_process_no_unknown _ dd s2 as)
      · obtain ⟨h1, h2⟩ := results_process_crashed _ dd s2 as hcase
        subst h1
        subst h2
        constructor
        · intro e n hmem
          simp [cout_actions] at hmem
        · intro _
          simp only [cout_state]
          refine ⟨by simpa using ha, by simpa using hrest, by simpa using hhist, ?_⟩
          intro p hp
          exact hres p (mem_aerase (by simpa using hp))
    | none =>
      dsimp only
      by_cases hr : req.retry_count > 3
      · rw [if_pos hr]
        constructor
        · intro e n hmem
          simp [cout_actions, next_block_event, next_event] at hmem
        · intro _
          simp only [cout_state, next_block_event, next_event]
          refine ⟨by simp, by simpa using hrest, by simpa using hhist, ?_⟩
          intro p hp
          simp only at hp
          exact hres p (mem_aerase (by simpa using hp))
      · rw [if_neg hr]
        have hreq_mem : (xs, req) ∈ s.result_xs := alookup_mem hx
        have hreq_b : req.e_block ≠ some b := hres (xs, req) hreq_mem
        constructor
        · intro e n hmem
          simp [cout_actions, next_result] at hmem
          rw [hmem.1]
          exact hreq_b
        · intro _
          simp only [cout_state, next_result]
          refine ⟨by simpa using ha, by simpa using hrest, by simpa using hhist, ?_⟩
          intro p hp
          simp only at hp
          rcases mem_ainsert (by simpa using hp) with h2 | h2
          · rw [h2]
            exact hreq_b
          · exact hres p (mem_aerase h2)

theorem c7_step_events (b : Nat) (s : EngineState) (env : Env) (xs : Nat)
    (resp : Option EventsData)
    (ha : s.auto_skip = true) (hrest : s.restoring = false)
    (hhist : s.history_xs = [])
    (hres : ∀ p ∈ s.result_xs, p.2.e_block ≠ some b)
    (hb : ∀ dd, resp = some dd → dd.eBlockId ≠ some b) :
    no_result_for b (cout_actions (events_callback s env xs resp)) ∧
    ((cout_state (events_callback s env xs resp)).auto_skip = true →
      C7Inv b (cout_state (events_callback s env xs resp))) := by
  rcases hx : alookup s.event_xs xs with - | n
  · simp only [events_callback, hx]
    exact ⟨by intro e n hmem; simp [cout_actions] at hmem,
      fun _ => ⟨ha, hrest, hhist, hres⟩⟩
  · simp only [events_callback, hx]
    cases resp with
    | none =>
      dsimp only
      constructor
      · intro e n2 hmem
        simp [cout_actions, next_event] at hmem
      · intro _
        simp only [cout_state, next_event]
        exact ⟨by simpa using ha, by simpa using hrest, by simpa using hhist,
          by intro p hp; exact hres p (by simpa using hp)⟩
    | some dd =>
      dsimp only
      rw [if_neg (by simp [hrest])]
      have hb2 := hb dd rfl
      have hep := c7_events_process b { s with event_xs := aerase s.event_xs xs } env dd
        (by simpa using ha) (by intro p hp; exact hres p (by simpa using hp))
        (by simpa using hhist) (by simpa using hrest) hb2
      rcases hcase : resource_events_process
          { s with event_xs := aerase s.event_xs xs } env dd with ⟨s2, as⟩ | ⟨s2, as⟩
      · have h2 := hep.1 s2 as hcase
        constructor
        · simpa [cout_actions] using h2.1
        · intro hskip
          simp only [cout_state] at hskip ⊢
          have h3 := h2.2 hskip
          exact ⟨hskip, h3.1, h3.2.1, h3.2.2⟩
      · obtain ⟨h2s, h2a⟩ := hep.2 s2 as hcase
        subst h2a
        subst h2s
        constructor
        · intro e n2 hmem
          simp [cout_actions, next_event] at hmem
        · intro _
          simp only [cout_state, next_event]
          exact ⟨by simpa using ha, by simpa using hrest, by simpa using hhist,
            by intro p hp; exact hres p (by simpa using hp)⟩

theorem c7_step_history (b : Nat) (s : EngineState) (xs : Nat)
    (resp : Option (List WeekResult))
    (ha : s.auto_skip = true) (hrest : s.restoring = false)
    (hhist : s.history_xs = [])
    (hres : ∀ p ∈ s.result_xs, p.2.e_block ≠ some b) :
    no_result_for b (cout_actions (history_callback s xs resp)) ∧
    ((cout_state (history_callback s xs resp)).auto_skip = true →
      C7Inv b (cout_state (history_callback s xs resp))) := by
  unfold history_callback
  dsimp only
  by_cases htrip : s.history_count > s.max_history_count
  · rw [if_pos htrip]
    have hlk : alookup (next_block_event { s with auto_skip := true }).1.history_xs xs
        = none := by
      simp [next_block_event, next_event, hhist, alookup]
    rw [hlk]
    constructor
    · intro e n hmem
      simp [cout_actions, next_block_event, next_event] at hmem
    · intro _
      simp only [cout_state, next_block_event, next_event]
      exact ⟨by simp, by simpa using hrest, by simpa using hhist,
        by intro p hp; exact hres p (by simpa using hp)⟩
  · rw [if_neg htrip]
    have hlk : alookup s.history_xs xs = none := by
      simp [hhist, alookup]
    rw [hlk]
    constructor
    · intro e n hmem
      simp [cout_actions] at hmem
    · intro _
      exact ⟨ha, hrest, hhist, hres⟩

theorem c7_step (b : Nat) (s : EngineState) (env : Env) (d : Delivery)
    (hinv : C7Inv b s) (hd : delivery_avoids b d) :
    no_result_for b (cout_actions (receive s env d)) ∧
    ((cout_state (receive s env d)).auto_skip = true →
      C7Inv b (cout_state (receive s env d))) := by
  obtain ⟨ha, hrest, hhist, hres⟩ := hinv
  cases d with
  | events xs resp =>
    exact c7_step_events b s env xs resp ha hrest hhist hres
      (fun dd hdd => by rw [hdd] at hd; exact hd)
  | results xs resp => exact c7_step_results b s xs resp ha hrest hhist hres
  | history xs resp => exact c7_step_history b s xs resp ha hrest hhist hres
  | stats xs =>
    constructor
    · intro e n hmem
      simp [receive, cout_actions] at hmem
    · intro _
      exact ⟨ha, hrest, hhist, hres⟩

theorem invalid_events_step_inv (env : Env) (p : EngineState × Nat) (n : Int)
    (h : alookup p.1.event_xs p.2 = some n) :
    alookup (invalid_events_step env p).1.event_xs
      (invalid_events_step env p).2 = some n := by
  unfold invalid_events_step
  simp only [events_callback, h, next_event]
  exact alookup_ainsert_self _ _ _

theorem iterate_invalid_events_inv (env : Env) (n : Int) :
    ∀ (k : Nat) (p : EngineState × Nat), alookup p.1.event_xs p.2 = some n →
      alookup (iterate_invalid_events env k p).1.event_xs
        (iterate_invalid_events env k p).2 = some n := by
  intro k
  induction k with
  | zero => intro p h; exact h
  | succ m ih =>
    intro p h
    exact ih (invalid_events_step env p) (invalid_events_step_inv env p n h)

/-- Claim C9: a malformed or empty fixtures response is answered by a fixed
2 s delay and a re-issue of the same logical fixtures request (same cursor
`n`).  The state equation shows the whole footprint of the retry — the old
ledger entry replaced by a fresh one carrying the identical cursor and
nothing else changed: the fixtures ledger stores no retry counter (its
entries are bare cursors), no retry budget is consulted, and the auto-skip
latch is untouched.  The iteration conjunct shows the retry repeats without
bound: after any number of consecutive invalid responses a fixtures request
with the same cursor is still pending. -/
theorem C9_events_unbounded_retry (s : EngineState) (env : Env) (xs : Nat) (n : Int)
    (h : alookup s.event_xs xs = some n) :
    events_callback s env xs none =
      COut.ok { s with event_xs := ainsert (aerase s.event_xs xs) s.next_xs n,
                       next_xs := s.next_xs + 1 }
        [Action.sleep 2, Action.sendEvents n] ∧
    (∀ k : Nat, alookup (iterate_invalid_events env k (s, xs)).1.event_xs
        (iterate_invalid_events env k (s, xs)).2 = some n) := by
  constructor
  · simp only [events_callback, h, next_event]
  · intro k
    exact iterate_invalid_events_inv env n k (s, xs) h

/-- Witness for `C9_events_unbounded_retry` at `c9s`, including the pending
cursor after 7 consecutive invalid responses. -/
theorem C9_events_unbounded_retry_witness :
    events_callback c9s envA 5 none =
      COut.ok { c9s with event_xs := ainsert (aerase c9s.event_xs 5) c9s.next_xs 1,
                         next_xs := c9s.next_xs + 1 }
        [Action.sleep 2, Action.sendEvents 1] ∧
    (∀ k : Nat, alookup (iterate_invalid_events envA k (c9s, 5)).1.event_xs
        (iterate_invalid_events envA k (c9s, 5)).2 = some 1) :=
  C9_events_unbounded_retry c9s envA 5 1 rfl

theorem lf_refl (s : EngineState) : ledgers_fresh s s :=
  ⟨le_refl _, fun _ _ h => h, fun _ _ h => h, fun _ _ h => h⟩

theorem lf_trans {a b c : EngineState} (h1 : ledgers_fresh a b)
    (h2 : ledgers_fresh b c) : ledgers_fresh a c :=
  ⟨le_trans h1.1 h2.1,
   fun x hx hn => h2.2.1 x (lt_of_lt_of_le hx h1.1) (h1.2.1 x hx hn),
   fun x hx hn => h2.2.2.1 x (lt_of_lt_of_le hx h1.1) (h1.2.2.1 x hx hn),
   fun x hx hn => h2.2.2.2 x (lt_of_lt_of_le hx h1.1) (h1.2.2.2 x hx hn)⟩

theorem lf_of_eq {s s2 : EngineState} (hn : s2.next_xs = s.next_xs)
    (he : s2.event_xs = s.event_xs) (hr : s2.result_xs = s.result_xs)
    (hh : s2.history_xs = s.history_xs) : ledgers_fresh s s2 :=
  ⟨le_of_eq hn.symm,
   fun x _ hno => by rw [he]; exact hno,
   fun x _ hno => by rw [hr]; exact hno,
   fun x _ hno => by rw [hh]; exact hno⟩

theorem lf_next_event (s : EngineState) (n : Int) :
    ledgers_fresh s (next_event s n).1 := by
  refine ⟨by simp [next_event], ?_, ?_, ?_⟩
  · intro x hx hno
    simp only [next_event]
    rw [alookup_ainsert_ne _ _ _ _ (Nat.ne_of_lt hx)]
    exact hno
  · intro x hx hno
    simpa [next_event] using hno
  · intro x hx hno
    simpa [next_event] using hno

theorem lf_next_result (s : EngineState) (e : Option Nat) (n : Int) (r : Nat) :
    ledgers_fresh s (next_result s e n r).1 := by
  refine ⟨by simp [next_result], ?_, ?_, ?_⟩
  · intro x hx hno
    simpa [next_result] using hno
  · intro x hx hno
    simp only [next_result]
    rw [alookup_ainsert_ne _ _ _ _ (Nat.ne_of_lt hx)]
    exact hno
  · intro x hx hno
    simpa [next_result] using hno

theorem lf_next_history (s : EngineState) (e : Option Nat) (n : Int) (r : Nat) :
    ledgers_fresh s (next_history s e n r).1 := by
  refine ⟨by simp [next_history], ?_, ?_, ?_⟩
  · intro x hx hno
    simpa [next_history] using hno
  · intro x hx hno
    simpa [next_history] using hno
  · intro x hx hno
    simp only [next_history]
    rw [alookup_ainsert_ne _ _ _ _ (Nat.ne_of_lt hx)]
    exact hno

theorem lf_future_fold (weeks : List Nat) :
    ∀ p : EngineState × List Action,
      ledgers_fresh p.1 ((weeks.foldl future_week_step p).1) := by
  induction weeks with
  | nil => intro p; exact lf_refl p.1
  | cons w ws ih =>
    intro p
    have hstep : ledgers_fresh p.1 (future_week_step p w).1 := by
      simp only [future_week_step]
      exact lf_next_result p.1 (get_block_by_week p.1 w) 1 0
    exact lf_trans hstep (ih (future_week_step p w))

theorem lf_multi_fold (weeks : List Nat) :
    ∀ p : EngineState × List Action,
      ledgers_fresh p.1 ((weeks.foldl multi_result_step p).1) := by
  induction weeks with
  | nil => intro p; exact lf_refl p.1
  | cons w ws ih =>
    intro p
    have hstep : ledgers_fresh p.1 (multi_result_step p w).1 := by
      simp only [multi_result_step]
      exact lf_next_result p.1 (get_block_by_week p.1 w) 1 0
    exact lf_trans hstep (ih (multi_result_step p w))

theorem lf_dispatch (s : EngineState) : ledgers_fresh s (dispatch_events s).1 := by
  unfold dispatch_events
  dsimp only
  split
  · exact lf_trans (lf_of_eq (by simp) (by simp) (by simp) (by simp))
      (lf_next_history _ s.e_block_id 10 0)
  · split
    · unfold get_future_weeks
      exact lf_trans (lf_of_eq (by simp) (by simp) (by simp) (by simp))
        (lf_future_fold _ _)
    · split
      · exact lf_of_eq (by simp [process_tickets]) (by simp [process_tickets])
          (by simp [process_tickets]) (by simp [process_tickets])
      · exact lf_trans (lf_of_eq (by simp) (by simp) (by simp) (by simp))
          (lf_next_result _ _ 1 0)

theorem lf_table_branch (s : EngineState) (stats : List (Nat × Nat)) :
    ledgers_fresh s (pout_state (events_table_branch s stats)) := by
  unfold events_table_branch
  dsimp only
  split
  · simp only [pout_state]
    exact lf_trans (lf_of_eq (by simp) (by simp) (by simp) (by simp)) (lf_dispatch _)
  · split
    · simp only [pout_state]
      exact lf_trans (lf_of_eq (by simp) (by simp) (by simp) (by simp))
        (lf_multi_fold _ _)
    · simp only [pout_state]
      exact lf_trans (lf_of_eq (by simp) (by simp) (by simp) (by simp))
        (lf_next_history _ _ (-10) 0)

theorem lf_core (s : EngineState) (env : Env) (d : EventsData) :
    ledgers_fresh s (pout_state (events_process_core s env d)) := by
  unfold events_process_core
  dsimp only
  split
  · simp only [pout_state]
    exact lf_trans (lf_of_eq (by simp) (by simp) (by simp) (by simp))
      (lf_next_result _ _ 1 0)
  · exact lf_trans (lf_of_eq (by simp) (by simp) (by simp) (by simp))
      (lf_table_branch _ _)

theorem lf_events_process (s : EngineState) (env : Env) (d : EventsData) :
    ledgers_fresh s (pout_state (resource_events_process s env d)) := by
  unfold resource_events_process
  dsimp only
  split
  · have hreset : ledgers_fresh s
        (events_reset { s with e_block_id := d.eBlockId }
          (events_league d) (events_match_day d)) := by
      unfold events_reset
      dsimp only
      split
      · exact lf_of_eq (by simp) (by simp) (by simp) (by simp)
      · by_cases hm : events_match_day d = some 1
        · rw [if_pos hm]
          exact lf_of_eq (by simp) (by simp) (by simp) (by simp)
        · rw [if_neg hm]
          exact lf_of_eq (by simp) (by simp) (by simp) (by simp)
    exact lf_trans hreset (lf_core _ env d)
  · simp only [pout_state]
    exact lf_refl s

theorem lf_resume (s : EngineState) (env : Env) (d : EventsData) :
    ledgers_fresh s (pout_state (resource_events_process_resume s env d)) := by
  unfold resource_events_process_resume
  dsimp only
  split
  · split
    · split
      · simp only [pout_state]
        exact lf_of_eq (by simp) (by simp) (by simp) (by simp)
      · simp only [pout_state]
        exact lf_trans (lf_of_eq (by simp) (by simp) (by simp) (by simp))
          (lf_next_result _ _ 1 0)
    · simp only [pout_state]
      exact lf_trans (lf_of_eq (by simp) (by simp) (by simp) (by simp))
        (lf_next_result _ _ 1 0)
  · have h1 : ledgers_fresh s
        ({ s with restoring := false, active_tickets := [] } : EngineState) :=
      lf_of_eq (by simp) (by simp) (by simp) (by simp)
    have h2 := lf_events_process
      ({ s with restoring := false, active_tickets := [] } : EngineState) env d
    rcases hcase : resource_events_process
        ({ s with restoring := false, active_tickets := [] } : EngineState) env d
      with ⟨s2, as⟩ | ⟨s2, as⟩
    · rw [hcase] at h2
      simp only [pout_state] at h2 ⊢
      exact lf_trans h1 h2
    · rw [hcase] at h2
      simp only [pout_state] at h2 ⊢
      exact lf_trans h1 h2

theorem lf_result_process (s : EngineState) (d : ResultsData) :
    ledgers_fresh s (cout_state (resource_result_process s d)) := by
  unfold resource_result_process
  dsimp only
  split
  · simp only [cout_state]
    exact lf_refl s
  · split
    · simp only [cout_state]
      exact lf_trans (lf_of_eq (by simp) (by simp) (by simp) (by simp))
        (lf_next_event _ 1)
    · split
      · split
        · simp only [cout_state]
          exact lf_trans (lf_of_eq (by simp) (by simp) (by simp) (by simp))
            (lf_dispatch _)
        · simp only [cout_state]
          exact lf_of_eq (by simp) (by simp) (by simp) (by simp)
      · split
        · split
          · simp only [cout_state]
            exact lf_trans (lf_of_eq (by simp) (by simp) (by simp) (by simp))
              (lf_dispatch _)
          · simp only [cout_state]
            exact lf_of_eq (by simp) (by simp) (by simp) (by simp)
        · split
          · simp only [cout_state]
            exact lf_trans (lf_of_eq (by simp) (by simp) (by simp) (by simp))
              (lf_next_event _ 1)
          · simp only [cout_state]
            exact lf_of_eq (by simp) (by simp) (by simp) (by simp)

theorem lf_history_process (s : EngineState) (e : Option Nat) (n : Int)
    (data : List WeekResult) :
    ledgers_fresh s (cout_state (resource_history_process s e n data)) := by
  have hfold := history_fold_same data s
  have h0 : ledgers_fresh s (history_fold s data).1 :=
    lf_of_eq hfold.2.2.2.2.1 hfold.2.1 hfold.2.2.2.1 hfold.2.2.1
  unfold resource_history_process
  dsimp only
  split
  · simp only [cout_state]
    exact h0
  · split
    · split
      · simp only [cout_state]
        exact lf_trans h0 (lf_next_history _ _ (-10) 0)
      · simp only [cout_state]
        exact lf_trans h0 (lf_trans
          (lf_of_eq (by simp) (by simp) (by simp) (by simp)) (lf_dispatch _))
    · split
      · split
        · simp only [cout_state]
          exact lf_trans h0 (lf_next_history _ _ 10 0)
        · simp only [cout_state]
          exact lf_trans h0 (lf_trans
            (lf_of_eq (by simp) (by simp) (by simp) (by simp)) (lf_dispatch _))
      · simp only [cout_state]
        exact h0

theorem lf_events_branch (s : EngineState) (env : Env) (d : EventsData) :
    ledgers_fresh s (pout_state (if s.restoring = true then
      resource_events_process_resume s env d else resource_events_process s env d)) := by
  split
  · exact lf_resume s env d
  · exact lf_events_process s env d

theorem events_unknown (s : EngineState) (env : Env) (xs : Nat)
    (resp : Option EventsData) (h : alookup s.event_xs xs = none) :
    events_callback s env xs resp = COut.unknownRequest s [] := by
  simp only [events_callback, h]

theorem results_unknown (s : EngineState) (xs : Nat) (resp : Option ResultsData)
    (h : alookup s.result_xs xs = none) :
    results_callback s xs resp = COut.unknownRequest s [] := by
  simp only [results_callback, h]

theorem history_unknown (s : EngineState) (xs : Nat)
    (resp : Option (List WeekResult)) (h : alookup s.history_xs xs = none) :
    cout_is_unknown (history_callback s xs resp) = true := by
  unfold history_callback
  dsimp only
  by_cases htrip : s.history_count > s.max_history_count
  · rw [if_pos htrip]
    have hlk : alookup (next_block_event { s with auto_skip := true }).1.history_xs xs
        = none := by
      simp only [next_block_event, next_event]
      simpa using h
    rw [hlk]
    rfl
  · rw [if_neg htrip]
    rw [h]
    rfl

theorem events_removed (s : EngineState) (env : Env) (xs : Nat) (n : Int)
    (resp : Option EventsData)
    (h : alookup s.event_xs xs = some n) (hwf : xs < s.next_xs) :
    alookup (cout_state (events_callback s env xs resp)).event_xs xs = none := by
  simp only [events_callback, h]
  cases resp with
  | none =>
    dsimp only
    simp only [cout_state, next_event]
    rw [alookup_ainsert_ne _ _ _ _ (Nat.ne_of_lt hwf)]
    exact alookup_aerase_self _ _
  | some dd =>
    dsimp only
    have hs' : alookup ({ s with event_xs := aerase s.event_xs xs } : EngineState).event_xs xs
        = none := by
      simpa using alookup_aerase_self s.event_xs xs
    have hlf := lf_events_branch { s with event_xs := aerase s.event_xs xs } env dd
    rcases hcase : (if ({ s with event_xs := aerase s.event_xs xs } : EngineState).restoring = true
        then resource_events_process_resume { s with event_xs := aerase s.event_xs xs } env dd
        else resource_events_process { s with event_xs := aerase s.event_xs xs } env dd)
      with ⟨s2, as⟩ | ⟨s2, as⟩
    · rw [hcase] at hlf
      simp only [pout_state] at hlf
      simp only [cout_state]
      exact hlf.2.1 xs (by simpa using hwf) hs'
    · rw [hcase] at hlf
      simp only [pout_state] at hlf
      simp only [cout_state, next_event]
      have hlf2 := lf_trans hlf (lf_next_event s2 n)
      have := hlf2.2.1 xs (by simpa using hwf) hs'
      simpa [next_event] using this

theorem results_removed (s : EngineState) (xs : Nat) (req : ResultReq)
    (resp : Option ResultsData)
    (h : alookup s.result_xs xs = some req) (hwf : xs < s.next_xs) :
    alookup (cout_state (results_callback s xs resp)).result_xs xs = none := by
  simp only [results_callback, h]
  cases resp with
  | some dd =>
    dsimp only
    have hs' : alookup ({ s with result_xs := aerase s.result_xs xs } : EngineState).result_xs xs
        = none := by
      simpa using alookup_aerase_self s.result_xs xs
    have hlf := lf_result_process { s with result_xs := aerase s.result_xs xs } dd
    exact hlf.2.2.1 xs (by simpa using hwf) hs'
  | none =>
    dsimp only
    by_cases hr : req.retry_count > 3
    · rw [if_pos hr]
      simp only [cout_state, next_block_event, next_event]
      simpa using alookup_aerase_self s.result_xs xs
    · rw [if_neg hr]
      simp only [cout_state, next_result]
      rw [alookup_ainsert_ne _ _ _ _ (Nat.ne_of_lt hwf)]
      simpa using alookup_aerase_self s.result_xs xs

theorem history_removed (s : EngineState) (xs : Nat) (req : ResultReq)
    (resp : Option (List WeekResult))
    (h : alookup s.history_xs xs = some req) (hwf : xs < s.next_xs) :
    alookup (cout_state (history_callback s xs resp)).history_xs xs = none := by
  unfold history_callback
  dsimp only
  by_cases htrip : s.history_count > s.max_history_count
  · rw [if_pos htrip]
    have hlk : alookup (next_block_event { s with auto_skip := true }).1.history_xs xs
        = some req := by
      simp only [next_block_event, next_event]
      simpa using h
    rw [hlk]
    cases resp with
    | some data =>
      dsimp only
      have hs' : alookup (aerase s.history_xs xs) xs = none := alookup_aerase_self _ _
      have hlf := lf_history_process
        { (next_block_event { s with auto_skip := true }).1 with
            history_xs := aerase (next_block_event { s with auto_skip := true }).1.history_xs xs }
        req.e_block req.n data
      rcases hcase : resource_history_process
          { (next_block_event { s with auto_skip := true }).1 with
              history_xs := aerase (next_block_event { s with auto_skip := true }).1.history_xs xs }
          req.e_block req.n data with ⟨s2, as⟩ | ⟨s2, as⟩ | ⟨s2, as⟩
      · rw [hcase] at hlf
        simp only [cout_state] at hlf ⊢
        refine hlf.2.2.2 xs ?_ ?_
        · simp [next_block_event, next_event]
          omega
        · simp [next_block_event, next_event]
          exact alookup_aerase_self _ _
      · rw [hcase] at hlf
        simp only [cout_state] at hlf ⊢
        refine hlf.2.2.2 xs ?_ ?_
        · simp [next_block_event, next_event]
          omega
        · simp [next_block_event, next_event]
          exact alookup_aerase_self _ _
      · rw [hcase] at hlf
        simp only [cout_state] at hlf ⊢
        refine hlf.2.2.2 xs ?_ ?_
        · simp [next_block_event, next_event]
          omega
        · simp [next_block_event, next_event]
          exact alookup_aerase_self _ _
    | none =>
      dsimp only
      by_cases hr : req.retry_count > 3
      · rw [if_pos hr]
        simp only [cout_state, next_block_event, next_event]
        simpa using alookup_aerase_self s.history_xs xs
      · rw [if_neg hr]
        simp only [cout_state, next_history]
        rw [alookup_ainsert_ne]
        · simpa using alookup_aerase_self s.history_xs xs
        · simp [next_block_event, next_event]
          omega
  · rw [if_neg htrip]
    rw [h]
    cases resp with
    | some data =>
      dsimp only
      have hlf := lf_history_process
        { s with history_xs := aerase s.history_xs xs } req.e_block req.n data
      rcases hcase : resource_history_process
          { s with history_xs := aerase s.history_xs xs } req.e_block req.n data
        with ⟨s2, as⟩ | ⟨s2, as⟩ | ⟨s2, as⟩
      · rw [hcase] at hlf
        simp only [cout_state] at hlf ⊢
        exact hlf.2.2.2 xs (by simpa using hwf)
          (by simpa using alookup_aerase_self s.history_xs xs)
      · rw [hcase] at hlf
        simp only [cout_state] at hlf ⊢
        exact hlf.2.2.2 xs (by simpa using hwf)
          (by simpa using alookup_aerase_self s.history_xs xs)
      · rw [hcase] at hlf
        simp only [cout_state] at hlf ⊢
        exact hlf.2.2.2 xs (by simpa using hwf)
          (by simpa using alookup_aerase_self s.history_xs xs)
    | none =>
      dsimp only
      by_cases hr : req.retry_count > 3
      · rw [if_pos hr]
        simp only [cout_state, next_block_event, next_event]
        simpa using alookup_aerase_self s.history_xs xs
      · rw [if_neg hr]
        simp only [cout_state, next_history]
        rw [alookup_ainsert_ne _ _ _ _ (Nat.ne_of_lt hwf)]
        simpa using alookup_aerase_self s.history_xs xs

/-- Claim C7: once auto-skip latches for a round (a results request whose
popped retry count exceeds 3 fails), that round's pending-ledger entry has
been removed and the only outbound request is the next fixtures request.
From any latched state satisfying the abandoned-block invariant `C7Inv`
(entry gone, no pending results request for the abandoned block `b`, no
pending history request, not restoring), every delivery whose fixtures
payload does not re-serve block `b` issues no results request for `b` and
preserves the invariant while the latch holds — so the engine never issues
another results request for the abandoned round.  And a results response
processed while the latch holds immediately sets the phase to
`AwaitingEvents` and requests the next round's fixtures, skipping ticket
dispatch entirely. -/
theorem C7_abandoned_round
    (s1 : EngineState) (xs1 : Nat) (req : ResultReq)
    (h1 : alookup s1.result_xs xs1 = some req)
    (h2 : req.retry_count > 3)
    (b : Nat) (s : EngineState) (env : Env) (d : Delivery)
    (hinv : C7Inv b s) (hd : delivery_avoids b d)
    (s3 : EngineState) (d3 : ResultsData) (s23 : EngineState) (as3 : List Action)
    (h3 : s3.auto_skip = true)
    (h4 : resource_result_process s3 d3 = COut.ok s23 as3) :
    (results_callback s1 xs1 none =
      COut.ok { s1 with
          result_xs := aerase s1.result_xs xs1,
          auto_skip := true,
          event_xs := ainsert s1.event_xs s1.next_xs 1,
          next_xs := s1.next_xs + 1 }
        [Action.sendEvents 1] ∧
     alookup (aerase s1.result_xs xs1) xs1 = none) ∧
    (no_result_for b (cout_actions (receive s env d)) ∧
     ((cout_state (receive s env d)).auto_skip = true →
       C7Inv b (cout_state (receive s env d)))) ∧
    (s23.phase = EVENTS ∧ as3 = [Action.sendEvents 1] ∧
     (∀ (e : Option Nat) (n : Int), Action.sendResult e n ∉ as3)) := by
  refine ⟨⟨?_, alookup_aerase_self _ _⟩, c7_step b s env d hinv hd, ?_⟩
  · simp only [results_callback, h1]
    rw [if_pos h2]
    simp [next_block_event, next_event]
  · have hl := results_process_latched s3 d3 s23 as3 h3 h4
    refine ⟨hl.1, hl.2.1, ?_⟩
    intro e n hmem
    rw [hl.2.1] at hmem
    simp at hmem

/-- Witness for `C7_abandoned_round` at the concrete latched states. -/
theorem C7_abandoned_round_witness :
    (results_callback c7s0 0 none =
      COut.ok { c7s0 with
          result_xs := aerase c7s0.result_xs 0,
          auto_skip := true,
          event_xs := ainsert c7s0.event_xs c7s0.next_xs 1,
          next_xs := c7s0.next_xs + 1 }
        [Action.sendEvents 1] ∧
     alookup (aerase c7s0.result_xs 0) 0 = none) ∧
    (no_result_for 77 (cout_actions (receive c7s envA c7d)) ∧
     ((cout_state (receive c7s envA c7d)).auto_skip = true →
       C7Inv 77 (cout_state (receive c7s envA c7d)))) ∧
    ((cout_state (resource_result_process c7r c7rd)).phase = EVENTS ∧
     cout_actions (resource_result_process c7r c7rd) = [Action.sendEvents 1] ∧
     (∀ (e : Option Nat) (n : Int),
       Action.sendResult e n ∉ cout_actions (resource_result_process c7r c7rd))) :=
  C7_abandoned_round c7s0 0 ⟨some 50, 1, 4⟩ rfl (by decide)
    77 c7s envA c7d ⟨rfl, rfl, rfl, by decide⟩ trivial
    c7r c7rd
    (cout_state (resource_result_process c7r c7rd))
    (cout_actions (resource_result_process c7r c7rd)) rfl rfl

/-- Claim C10: the auto-skip flag, once latched, is preserved by every
fixtures, results and history processing step except exactly one — a
fixtures response whose league id differs from the tracked league (or none
is truthy-tracked) with match day 1.  While latched, a fixtures response is
answered by requesting results without touching the table, and a successful
results response is answered by requesting the next fixtures without
recording the result or notifying any strategy. -/
theorem C10_auto_skip_latch
    (sa : EngineState) (ea : Env) (da : EventsData) (s2a : EngineState) (asa : List Action)
    (ha : sa.auto_skip = true)
    (hra : resource_events_process sa ea da = POut.ok s2a asa)
    (sb : EngineState) (eb : Env) (db : EventsData) (s2b : EngineState) (asb : List Action)
    (hb : sb.auto_skip = true)
    (hnc : (events_league db = sb.league ∧ truthy sb.league = true) ∨
      events_match_day db ≠ some 1)
    (hrb : resource_events_process sb eb db = POut.ok s2b asb)
    (sc : EngineState) (dc : ResultsData)
    (sd : EngineState) (ed : Option Nat) (nd : Int) (dd : List WeekResult)
    (se : EngineState) (de : ResultsData) (s2e : EngineState) (ase : List Action)
    (he : se.auto_skip = true)
    (hre : resource_result_process se de = COut.ok s2e ase) :
    (s2a.auto_skip = false ↔
      (¬ (events_league da = sa.league ∧ truthy sa.league = true) ∧
        events_match_day da = some 1)) ∧
    (s2b.phase = RESULTS ∧ s2b.auto_skip = true ∧ s2b.table = sb.table ∧
      asb = [Action.awaitEventTime, Action.sendResult s2b.e_block_id 1]) ∧
    ((cout_state (resource_result_process sc dc)).auto_skip = sc.auto_skip) ∧
    ((cout_state (resource_history_process sd ed nd dd)).auto_skip = sd.auto_skip) ∧
    (s2e.phase = EVENTS ∧ ase = [Action.sendEvents 1] ∧ s2e.table = se.table ∧
      Action.notifyResult ∉ ase) := by
  refine ⟨?_, ?_, ?_, ?_, ?_⟩
  · exact events_process_auto_skip_iff sa ea da s2a asa ha hra
  · exact events_process_latched sb eb db s2b asb hb hnc hrb
  · exact results_process_auto_skip sc dc
  · exact history_process_auto_skip sd ed nd dd
  · have hl := results_process_latched se de s2e ase he hre
    refine ⟨hl.1, hl.2.1, hl.2.2.1, ?_⟩
    rw [hl.2.1]
    decide

/-- Witness for `C10_auto_skip_latch` at concrete latched states. -/
theorem C10_auto_skip_latch_witness :
    ((pout_state (resource_events_process c10s envA c10clear)).auto_skip = false ↔
      (¬ (events_league c10clear = c10s.league ∧ truthy c10s.league = true) ∧
        events_match_day c10clear = some 1)) ∧
    ((pout_state (resource_events_process c10s envA c10same)).phase = RESULTS ∧
     (pout_state (resource_events_process c10s envA c10same)).auto_skip = true ∧
     (pout_state (resource_events_process c10s envA c10same)).table = c10s.table ∧
      pout_actions (resource_events_process c10s envA c10same) =
        [Action.awaitEventTime, Action.sendResult
          (pout_state (resource_events_process c10s envA c10same)).e_block_id 1]) ∧
    ((cout_state (resource_result_process stateA c10r)).auto_skip = stateA.auto_skip) ∧
    ((cout_state (resource_history_process stateA (some 40) (-10) c10h)).auto_skip
      = stateA.auto_skip) ∧
    ((cout_state (resource_result_process c10s c10r)).phase = EVENTS ∧
      cout_actions (resource_result_process c10s c10r) = [Action.sendEvents 1] ∧
      (cout_state (resource_result_process c10s c10r)).table = c10s.table ∧
      Action.notifyResult ∉ cout_actions (resource_result_process c10s c10r)) :=
  C10_auto_skip_latch c10s envA c10clear
    (pout_state (resource_events_process c10s envA c10clear))
    (pout_actions (resource_events_process c10s envA c10clear)) rfl rfl
    c10s envA c10same
    (pout_state (resource_events_process c10s envA c10same))
    (pout_actions (resource_events_process c10s envA c10same)) rfl (by decide) rfl
    stateA c10r
    stateA (some 40) (-10) c10h
    c10s c10r
    (cout_state (resource_result_process c10s c10r))
    (cout_actions (resource_result_process c10s c10r)) rfl rfl

/-- Witness for `C6_dispatch_policy` at the concrete states `c6s`, `c6p` and
`c6q`. -/
theorem C6_dispatch_policy_witness :
    ((dispatch_events c6s).2 = [Action.sendHistory c6s.e_block_id 10] ∧
     (dispatch_events c6s).1.caching_future = true ∧
     (dispatch_events c6s).1.cached = false) ∧
    ((dispatch_events c6p).1.fetching_future = true ∧
     (dispatch_events c6p).1.phase = c6p.phase ∧
     (dispatch_events c6p).2 =
       ((c6p.table.check_weeks c6p.required_weeks).map
         (fun w => [Action.sleep 2, Action.sendResult (get_block_by_week c6p w) 1])).flatten) ∧
    ((c6q.players.foldl (fun acc p => if p.active then acc ++ p.tickets else acc)
        ([] : List Nat)).isEmpty = true →
      (dispatch_events c6q).1.phase = RESULTS ∧
      (dispatch_events c6q).2 = [Action.awaitEventTime, Action.sendResult c6q.e_block_id 1]) ∧
    ((c6q.players.foldl (fun acc p => if p.active then acc ++ p.tickets else acc)
        ([] : List Nat)).isEmpty = false →
      (dispatch_events c6q).1.phase = TICKETS ∧
      (dispatch_events c6q).2 =
        [Action.processTickets
          (c6q.players.foldl (fun acc p => if p.active then acc ++ p.tickets else acc)
            ([] : List Nat))]) :=
  C6_dispatch_policy c6s (by decide) c6p (by decide) rfl (by decide) c6q (by decide) rfl

/-- Claim C8 is false as stated for the stats request kind: the class
defines no stats handler, so `receive` drops a stats delivery entirely —
the outcome is a plain success with the state unchanged, the pending
stats-ledger entry is retained rather than removed, and even an absent
stats id does not fail with `UnknownRequest`. -/
theorem C8_counterexample :
    receive c8s envA (Delivery.stats 42) = COut.ok c8s [] ∧
    alookup (cout_state (receive c8s envA (Delivery.stats 42))).stats_xs 42
      = some 7 ∧
    cout_is_unknown (receive c8s envA (Delivery.stats 99)) = false := by
  exact ⟨rfl, by decide, rfl⟩

/-- Claim C8 (amended): for the fixtures, results and history request kinds,
delivering a response removes the corresponding pending-ledger entry exactly
once — after the delivery the entry is gone, and delivering the same id
again fails with `UnknownRequest` — and processing a response whose request
id is absent from that kind's ledger (never registered or already resolved)
fails with `UnknownRequest` rather than being handled normally.  Stats
responses are exempt: with no stats handler the delivery is silently
dropped.  The hypothesis `xs < s.next_xs` says the id is one the engine's
own counter could have issued. -/
theorem C8_ledger_discipline
    (s : EngineState) (env : Env) (xs : Nat)
    (eo : Option EventsData) (ro : Option ResultsData)
    (ho : Option (List WeekResult))
    (n : Int) (rq hq : ResultReq) (hwf : xs < s.next_xs) :
    (alookup s.event_xs xs = none →
      cout_is_unknown (receive s env (Delivery.events xs eo)) = true) ∧
    (alookup s.result_xs xs = none →
      cout_is_unknown (receive s env (Delivery.results xs ro)) = true) ∧
    (alookup s.history_xs xs = none →
      cout_is_unknown (receive s env (Delivery.history xs ho)) = true) ∧
    (alookup s.event_xs xs = some n →
      alookup (cout_state (receive s env (Delivery.events xs eo))).event_xs xs
          = none ∧
      cout_is_unknown
        (receive (cout_state (receive s env (Delivery.events xs eo))) env
          (Delivery.events xs eo)) = true) ∧
    (alookup s.result_xs xs = some rq →
      alookup (cout_state (receive s env (Delivery.results xs ro))).result_xs xs
          = none ∧
      cout_is_unknown
        (receive (cout_state (receive s env (Delivery.results xs ro))) env
          (Delivery.results xs ro)) = true) ∧
    (alookup s.history_xs xs = some hq →
      alookup (cout_state (receive s env (Delivery.history xs ho))).history_xs xs
          = none ∧
      cout_is_unknown
        (receive (cout_state (receive s env (Delivery.history xs ho))) env
          (Delivery.history xs ho)) = true) := by
  refine ⟨?_, ?_, ?_, ?_, ?_, ?_⟩
  · intro h
    simp only [receive]
    rw [events_unknown s env xs eo h]
    rfl
  · intro h
    simp only [receive]
    rw [results_unknown s xs ro h]
    rfl
  · intro h
    simp only [receive]
    exact history_unknown s xs ho h
  · intro h
    have h1 : alookup
        (cout_state (receive s env (Delivery.events xs eo))).event_xs xs
        = none := by
      simp only [receive]
      exact events_removed s env xs n eo h hwf
    refine ⟨h1, ?_⟩
    simp only [receive] at h1 ⊢
    rw [events_unknown _ env xs eo h1]
    rfl
  · intro h
    have h1 : alookup
        (cout_state (receive s env (Delivery.results xs ro))).result_xs xs
        = none := by
      simp only [receive]
      exact results_removed s xs rq ro h hwf
    refine ⟨h1, ?_⟩
    simp only [receive] at h1 ⊢
    rw [results_unknown _ xs ro h1]
    rfl
  · intro h
    have h1 : alookup
        (cout_state (receive s env (Delivery.history xs ho))).history_xs xs
        = none := by
      simp only [receive]
      exact history_removed s xs hq ho h hwf
    refine ⟨h1, ?_⟩
    simp only [receive] at h1 ⊢
    exact history_unknown _ xs ho h1

/-- A concrete instance of the C8 ledger discipline, at the state `c8s`
holding one pending fixtures, results and history request each under
ledger id 4 (with `next_xs = 10`). -/
theorem C8_ledger_discipline_witness :
    (4 : Nat) < c8s.next_xs ∧
    ((alookup c8s.event_xs 4 = none →
       cout_is_unknown (receive c8s envA (Delivery.events 4 none)) = true) ∧
     (alookup c8s.result_xs 4 = none →
       cout_is_unknown (receive c8s envA (Delivery.results 4 none)) = true) ∧
     (alookup c8s.history_xs 4 = none →
       cout_is_unknown (receive c8s envA (Delivery.history 4 none)) = true) ∧
     (alookup c8s.event_xs 4 = some 1 →
       alookup
           (cout_state (receive c8s envA (Delivery.events 4 none))).event_xs 4
           = none ∧
       cout_is_unknown
         (receive (cout_state (receive c8s envA (Delivery.events 4 none))) envA
           (Delivery.events 4 none)) = true) ∧
     (alookup c8s.result_xs 4 = some ⟨some 50, 1, 0⟩ →
       alookup
           (cout_state (receive c8s envA (Delivery.results 4 none))).result_xs 4
           = none ∧
       cout_is_unknown
         (receive (cout_state (receive c8s envA (Delivery.results 4 none))) envA
           (Delivery.results 4 none)) = true) ∧
     (alookup c8s.history_xs 4 = some ⟨some 50, 1, 0⟩ →
       alookup
           (cout_state (receive c8s envA (Delivery.history 4 none))).history_xs 4
           = none ∧
       cout_is_unknown
         (receive (cout_state (receive c8s envA (Delivery.history 4 none))) envA
           (Delivery.history 4 none)) = true)) :=
  ⟨by decide,
   C8_ledger_discipline c8s envA 4 none none none 1 ⟨some 50, 1, 0⟩
     ⟨some 50, 1, 0⟩ (by decide)⟩

end Vbet
